import Mathlib

/-!
# Verification of the Java token parser (app/javaparser/parser.py)

This file gives a shallow embedding of the recursive-descent parser in
`app/javaparser/parser.py` together with the AST record shapes of
`app/javaparser/ast.py` and the exception hierarchy of
`app/javaparser/errors.py`, and proves or refutes the frozen claims about
that code.

Modelling conventions:
* Python exceptions become an explicit `Exc` sum; `except ParseError`
  handlers catch only the two parser error kinds, `except Exception` and
  bare `except:` handlers catch every kind except the artificial
  `outOfFuel` marker, which models non-termination and always propagates.
* Mutation of the shared `Parser` object becomes explicit state passing
  through `PState`; an exception carries the state at the raise point,
  matching Python semantics where the object keeps its mutated fields.
* The unbounded `while` loops and the mutual recursion of the parser are
  driven by a fuel parameter; with enough fuel the embedding computes the
  exact Python result, and exhausted fuel surfaces as `Exc.outOfFuel`.
* Only the AST dataclasses the parser actually instantiates are embedded
  as `Node` constructors; field names follow `ast.py` (with `extendsName`
  for Python's reserved-in-Lean `extends`).
-/

namespace JavaParser

/-- `Token` from parser.py: kind, lexeme and 1-based position. -/
structure Token where
  type : String
  lexeme : String
  line : Int
  column : Int
deriving DecidableEq, Repr

/-- `Position` from ast.py. -/
structure Position where
  line : Int
  column : Int
deriving DecidableEq, Repr

/-- The members of the `NodeType` enum in ast.py that the parser and the
claims mention. -/
inductive NodeType where
  | PROGRAM
  | CLASS_DECLARATION
  | METHOD_DECLARATION
  | FIELD_DECLARATION
  | VARIABLE_DECLARATION
  | TYPE
  | BLOCK
  | PARAMETER
  | EXPRESSION_STATEMENT
  | ASSIGNMENT
  | BINARY_OPERATION
  | UNARY_OPERATION
  | LITERAL
  | IDENTIFIER
  | METHOD_CALL
  | FIELD_ACCESS
  | IF_STATEMENT
  | WHILE_STATEMENT
  | FOR_STATEMENT
  | FOR_EACH_STATEMENT
  | RETURN_STATEMENT
  | TRY_STATEMENT
  | CAST_EXPRESSION
deriving DecidableEq, Repr

/-- Exceptions that can escape parser code.  `unexpectedToken` and
`parseError` embed `UnexpectedTokenError` and `ParseError` from errors.py;
`attributeError` models Python's `AttributeError` (e.g. `None.line`);
`typeError` models `TypeError` from calling `UnexpectedTokenError` with too
few arguments; `outOfFuel` is the fuel-exhaustion marker of the embedding,
not a Python exception. -/
inductive Exc where
  | unexpectedToken (expected actual : String) (line column : Int)
  | parseError (message : String) (line column : Int)
  | attributeError
  | typeError
  | outOfFuel
deriving DecidableEq, Repr

/-- The AST dataclasses of ast.py that parser.py instantiates, as one
inductive.  Every constructor starts with the shared `ASTNode` fields
(node_type, position, children, name) and then its dataclass-specific
payload fields in source order. -/
inductive Node where
  | astNode (node_type : NodeType) (position : Position)
      (children : List Node) (name : String)
  | identifier (node_type : NodeType) (position : Position)
      (children : List Node) (name : String)
  | typeNode (node_type : NodeType) (position : Position)
      (children : List Node) (name : String)
      (is_array : Bool) (generic_types : List Node)
  | literal (node_type : NodeType) (position : Position)
      (children : List Node) (name : String)
      (value : String) (literal_type : String)
  | binaryOperation (node_type : NodeType) (position : Position)
      (children : List Node) (name : String)
      (operator : String) (left : Option Node) (right : Option Node)
  | assignment (node_type : NodeType) (position : Position)
      (children : List Node) (name : String)
      (operator : String) (target : Option Node) (value : Option Node)
  | methodCall (node_type : NodeType) (position : Position)
      (children : List Node) (name : String)
      (method_name : String) (arguments : List Node) (target : Option Node)
  | parameter (node_type : NodeType) (position : Position)
      (children : List Node) (name : String)
      (param_type : Option Node)
  | variableDeclaration (node_type : NodeType) (position : Position)
      (children : List Node) (name : String)
      (var_type : Option Node) (value : Option Node) (modifiers : List String)
  | fieldDeclaration (node_type : NodeType) (position : Position)
      (children : List Node) (name : String)
      (field_type : Option Node) (value : Option Node) (modifiers : List String)
  | block (node_type : NodeType) (position : Position)
      (children : List Node) (name : String)
      (statements : List Node)
  | methodDeclaration (node_type : NodeType) (position : Position)
      (children : List Node) (name : String)
      (return_type : Option Node) (parameters : List Node)
      (body : Option Node) (modifiers : List String) (throwsList : List Node)
  | classDeclaration (node_type : NodeType) (position : Position)
      (children : List Node) (name : String)
      (modifiers : List String) (extendsName : Option String)
      (implementsList : List String)
      (fields : List Node) (methods : List Node) (constructors : List Node)
  | program (node_type : NodeType) (position : Position)
      (children : List Node) (name : String)
      (package : Option String) (imports : List String) (classes : List Node)
deriving Repr

namespace Node

/-- The shared `node_type` field of every dataclass. -/
def nodeTypeOf : Node → NodeType
  | astNode nt _ _ _ => nt
  | identifier nt _ _ _ => nt
  | typeNode nt _ _ _ _ _ => nt
  | literal nt _ _ _ _ _ => nt
  | binaryOperation nt _ _ _ _ _ _ => nt
  | assignment nt _ _ _ _ _ _ => nt
  | methodCall nt _ _ _ _ _ _ => nt
  | parameter nt _ _ _ _ => nt
  | variableDeclaration nt _ _ _ _ _ _ => nt
  | fieldDeclaration nt _ _ _ _ _ _ => nt
  | block nt _ _ _ _ => nt
  | methodDeclaration nt _ _ _ _ _ _ _ _ => nt
  | classDeclaration nt _ _ _ _ _ _ _ _ _ => nt
  | program nt _ _ _ _ _ _ => nt

/-- The shared `name` field. -/
def nameOf : Node → String
  | astNode _ _ _ n => n
  | identifier _ _ _ n => n
  | typeNode _ _ _ n _ _ => n
  | literal _ _ _ n _ _ => n
  | binaryOperation _ _ _ n _ _ _ => n
  | assignment _ _ _ n _ _ _ => n
  | methodCall _ _ _ n _ _ _ => n
  | parameter _ _ _ n _ => n
  | variableDeclaration _ _ _ n _ _ _ => n
  | fieldDeclaration _ _ _ n _ _ _ => n
  | block _ _ _ n _ => n
  | methodDeclaration _ _ _ n _ _ _ _ _ => n
  | classDeclaration _ _ _ n _ _ _ _ _ _ => n
  | program _ _ _ n _ _ _ => n

/-- `ASTNode.add_child`: append to `children` unless the child is `None`. -/
def addChild (node : Node) (child : Option Node) : Node :=
  match child with
  | none => node
  | some c =>
    match node with
    | astNode nt p cs n => astNode nt p (cs ++ [c]) n
    | identifier nt p cs n => identifier nt p (cs ++ [c]) n
    | typeNode nt p cs n a g => typeNode nt p (cs ++ [c]) n a g
    | literal nt p cs n v l => literal nt p (cs ++ [c]) n v l
    | binaryOperation nt p cs n o l r => binaryOperation nt p (cs ++ [c]) n o l r
    | assignment nt p cs n o t v => assignment nt p (cs ++ [c]) n o t v
    | methodCall nt p cs n m a t => methodCall nt p (cs ++ [c]) n m a t
    | parameter nt p cs n t => parameter nt p (cs ++ [c]) n t
    | variableDeclaration nt p cs n t v m => variableDeclaration nt p (cs ++ [c]) n t v m
    | fieldDeclaration nt p cs n t v m => fieldDeclaration nt p (cs ++ [c]) n t v m
    | block nt p cs n s => block nt p (cs ++ [c]) n s
    | methodDeclaration nt p cs n r pa b m th => methodDeclaration nt p (cs ++ [c]) n r pa b m th
    | classDeclaration nt p cs n m e i f me co => classDeclaration nt p (cs ++ [c]) n m e i f me co
    | program nt p cs n pk im cl => program nt p (cs ++ [c]) n pk im cl

/-- `program.imports.append(x)` (a no-op on other node shapes). -/
def appendImport (node : Node) (s : String) : Node :=
  match node with
  | program nt p cs n pk im cl => program nt p cs n pk (im ++ [s]) cl
  | other => other

/-- `program.classes.append(x)`. -/
def appendClass (node : Node) (c : Node) : Node :=
  match node with
  | program nt p cs n pk im cl => program nt p cs n pk im (cl ++ [c])
  | other => other

/-- `class_decl.fields.append(x)`. -/
def appendField (node : Node) (f : Node) : Node :=
  match node with
  | classDeclaration nt p cs n m e i fs me co =>
      classDeclaration nt p cs n m e i (fs ++ [f]) me co
  | other => other

/-- `class_decl.methods.append(x)`. -/
def appendMethod (node : Node) (f : Node) : Node :=
  match node with
  | classDeclaration nt p cs n m e i fs me co =>
      classDeclaration nt p cs n m e i fs (me ++ [f]) co
  | other => other

/-- `block.statements.append(x)`. -/
def appendStatement (node : Node) (st : Node) : Node :=
  match node with
  | block nt p cs n ss => block nt p cs n (ss ++ [st])
  | other => other

/-- `method.parameters = ps`. -/
def setParameters (node : Node) (ps : List Node) : Node :=
  match node with
  | methodDeclaration nt p cs n r _ b m th => methodDeclaration nt p cs n r ps b m th
  | other => other

/-- `method.body = b`. -/
def setBody (node : Node) (b : Node) : Node :=
  match node with
  | methodDeclaration nt p cs n r pa _ m th => methodDeclaration nt p cs n r pa (some b) m th
  | other => other

/-- `field.value = v` (also used for `interface` fields). -/
def setFieldValue (node : Node) (v : Option Node) : Node :=
  match node with
  | fieldDeclaration nt p cs n t _ m => fieldDeclaration nt p cs n t v m
  | other => other

/-- `type_node.generic_types = gs`. -/
def setGenericTypes (node : Node) (gs : List Node) : Node :=
  match node with
  | typeNode nt p cs n a _ => typeNode nt p cs n a gs
  | other => other

/-- `type_node.is_array = True`. -/
def setIsArray (node : Node) : Node :=
  match node with
  | typeNode nt p cs n _ g => typeNode nt p cs n true g
  | other => other

/-- `method_call.arguments.append(x)`. -/
def appendArgument (node : Node) (a : Node) : Node :=
  match node with
  | methodCall nt p cs n m args t => methodCall nt p cs n m (args ++ [a]) t
  | other => other

/-- The `fields` list of a `ClassDeclaration` (empty on other shapes). -/
def fieldsOf : Node → List Node
  | classDeclaration _ _ _ _ _ _ _ fs _ _ => fs
  | _ => []

/-- The `methods` list of a `ClassDeclaration`. -/
def methodsOf : Node → List Node
  | classDeclaration _ _ _ _ _ _ _ _ me _ => me
  | _ => []

/-- The `constructors` list of a `ClassDeclaration`. -/
def constructorsOf : Node → List Node
  | classDeclaration _ _ _ _ _ _ _ _ _ co => co
  | _ => []

/-- The `classes` list of a `Program`. -/
def classesOf : Node → List Node
  | program _ _ _ _ _ _ cl => cl
  | _ => []

/-- Python truthiness of an `isinstance(x, FieldDeclaration)` test. -/
def isFieldDeclaration : Node → Bool
  | fieldDeclaration _ _ _ _ _ _ _ => true
  | _ => false

/-- `isinstance(x, MethodDeclaration)`. -/
def isMethodDeclaration : Node → Bool
  | methodDeclaration _ _ _ _ _ _ _ _ _ => true
  | _ => false

/-- `isinstance(x, VariableDeclaration)`. -/
def isVariableDeclarationNode : Node → Bool
  | variableDeclaration _ _ _ _ _ _ _ => true
  | _ => false

end Node

/-- The mutable fields of the Python `Parser` object.  Python appends
recovery points at the end of the list and reads or pops from the end; the
Lean list stores the most recent point at the head, which is the same
stack. -/
structure PState where
  tokens : List Token
  pos : Nat
  current_token : Option Token
  error_recovery_points : List Nat
deriving DecidableEq, Repr

/-- Outcome of running a parser action: Python either returns a value or
lets an exception escape; in both cases the mutated object state is kept. -/
inductive PResult (α : Type) where
  | ok (a : α) (s : PState)
  | err (e : Exc) (s : PState)
deriving Repr

/-- A parser action: the method body of `Parser`, explicit in `self`. -/
def PM (α : Type) : Type := PState → PResult α

instance : Monad PM where
  pure a := fun s => .ok a s
  bind m f := fun s =>
    match m s with
    | .ok a s' => f a s'
    | .err e s' => .err e s'

/-- `raise e`. -/
def throwE {α : Type} (e : Exc) : PM α := fun s => .err e s

/-- Read the whole state (`self`). -/
def getS : PM PState := fun s => .ok s s

/-- Overwrite the whole state. -/
def setS (s : PState) : PM Unit := fun _ => .ok () s

/-- Apply a pure state update. -/
def modifyS (f : PState → PState) : PM Unit := fun s => .ok () (f s)

/-- `try m except ParseError: h` — only the two errors.py kinds are caught;
Python `AttributeError`/`TypeError` and the fuel marker propagate. -/
def catchParse {α : Type} (m : PM α) (h : Exc → PM α) : PM α := fun s =>
  match m s with
  | .ok a s' => .ok a s'
  | .err e s' =>
    match e with
    | .unexpectedToken ex ac l c => h (.unexpectedToken ex ac l c) s'
    | .parseError msg l c => h (.parseError msg l c) s'
    | other => .err other s'

/-- `try m except Exception: h` (also bare `except:`) — catches every
Python exception; only the fuel marker propagates. -/
def catchAll {α : Type} (m : PM α) (h : Exc → PM α) : PM α := fun s =>
  match m s with
  | .ok a s' => .ok a s'
  | .err .outOfFuel s' => .err .outOfFuel s'
  | .err e s' => h e s'

/-! ## The token cursor (Parser.__init__ and the underscore helpers) -/

/-- `Parser.__init__`: position 0, current token is `tokens[0]` when the
list is non-empty and `None` otherwise, empty recovery stack. -/
def initParser (tokens : List Token) : PState :=
  { tokens := tokens
    pos := 0
    current_token := tokens.head?
    error_recovery_points := [] }

/-- `_advance`, as a pure state transformer.  When the next index would be
out of range the position clamps to `len(tokens)` and the current token
becomes `None`; Python's `len(self.tokens) - 1` on an empty list is `-1`
and `pos >= -1` always holds, which Nat subtraction reproduces. -/
def advanceState (s : PState) : PState :=
  if s.tokens.length - 1 ≤ s.pos then
    { s with pos := s.tokens.length, current_token := none }
  else
    { s with pos := s.pos + 1, current_token := s.tokens.get? (s.pos + 1) }

/-- `_advance` as an action. -/
def advanceM : PM Unit := modifyS advanceState

/-- `_match(token_type, value)`: a pure read of the current token. -/
def matchTok (token_type : String) (value : Option String) (s : PState) : Bool :=
  match s.current_token with
  | none => false
  | some t =>
    if t.type ≠ token_type then false
    else
      match value with
      | none => true
      | some v => t.lexeme = v

/-- `_match` as an action. -/
def matchM (token_type : String) (value : Option String) : PM Bool :=
  fun s => .ok (matchTok token_type value s) s

/-- `_current_position`. -/
def currentPosition (s : PState) : Position :=
  match s.current_token with
  | some t => ⟨t.line, t.column⟩
  | none => ⟨1, 1⟩

/-- `_current_position` as an action. -/
def currentPosM : PM Position := fun s => .ok (currentPosition s) s

/-- `_reset_to_position(pos)`, as a pure state transformer: the current
token is re-read from the list, or `None` past the end. -/
def resetState (p : Nat) (s : PState) : PState :=
  { s with pos := p, current_token := s.tokens.get? p }

/-- `_reset_to_position` as an action. -/
def resetM (p : Nat) : PM Unit := modifyS (resetState p)

/-- `_push_recovery_point`. -/
def pushRecoveryPoint : PM Unit :=
  modifyS fun s =>
    { s with error_recovery_points := s.pos :: s.error_recovery_points }

/-- `_pop_recovery_point` (a no-op on an empty stack). -/
def popRecoveryPoint : PM Unit :=
  modifyS fun s =>
    match s.error_recovery_points with
    | [] => s
    | _ :: rest => { s with error_recovery_points := rest }

/-- Python's `"'" + x + "'"` decoration used by `_expect`. -/
def quoted (x : String) : String := "\x27" ++ x ++ "\x27"

/-- `_expect(token_type, value)`.  On a kind mismatch with a token present
it raises `UnexpectedTokenError(expected, actual, line, column)`.  With no
current token the Python code computes `actual = "EOF"` but then evaluates
`self.current_token.line` on `None`, so the constructor call raises
`AttributeError` instead of the intended error. -/
def expectTok (token_type : String) (value : Option String) : PM Token := fun s =>
  match s.current_token with
  | none => .err .attributeError s
  | some t =>
    if t.type ≠ token_type then
      .err (.unexpectedToken token_type t.type t.line t.column) s
    else
      match value with
      | some v =>
        if t.lexeme ≠ v then
          .err (.unexpectedToken (quoted v) (quoted t.lexeme) t.line t.column) s
        else
          .ok t (advanceState s)
      | none => .ok t (advanceState s)

/-- The token-skipping `while` loop inside `_recover_from_error`, with
fuel for the cursor walk. -/
def recoverSkip : Nat → PState → PResult Unit
  | 0, s => .err .outOfFuel s
  | fuel + 1, s =>
    match s.current_token with
    | none => .ok () s
    | some t =>
      if t.type = "EOF" then .ok () s
      else if matchTok "KEYWORD" (some "class") s || matchTok "KEYWORD" (some "import") s then
        .ok () s
      else if matchTok "SEPARATOR" (some "\x7d") s || matchTok "SEPARATOR" (some ";") s then
        .ok () (advanceState s)
      else recoverSkip fuel (advanceState s)

/-- `_recover_from_error`: with no saved point it returns `False`;
otherwise it resets to the most recent point, pops it, skips tokens up to
a synchronization token and returns `True`. -/
def recoverFromError (fuel : Nat) : PM Bool := fun s =>
  match s.error_recovery_points with
  | [] => .ok false s
  | p :: rest =>
    match recoverSkip fuel (resetState p { s with error_recovery_points := rest }) with
    | .ok () s' => .ok true s'
    | .err e s' => .err e s'

/-- `_is_assignment_operator`. -/
def isAssignmentOperator (s : PState) : Bool :=
  match s.current_token with
  | none => false
  | some t =>
    t.lexeme = "=" || t.lexeme = "+=" || t.lexeme = "-=" || t.lexeme = "*=" ||
    t.lexeme = "/=" || t.lexeme = "%=" || t.lexeme = "&=" || t.lexeme = "|=" ||
    t.lexeme = "^=" || t.lexeme = "<<=" || t.lexeme = ">>=" || t.lexeme = ">>>="

/-- `_lookahead_for_constructor`: only checks that the very next token is
an opening parenthesis; the identifier is never compared with the
enclosing class's name. -/
def lookaheadForConstructor (s : PState) : Bool :=
  match s.tokens.get? (s.pos + 1) with
  | some t => t.lexeme = "("
  | none => false

/-- The scanning loop of `_lookahead_for_cast`, walking over the token
suffix starting at `temp_pos = pos + 1` with a parenthesis counter that
starts at 1; on the closing parenthesis it tests the kind of the next
token. -/
def castScan (rest : List Token) (paren_count : Nat) : Bool :=
  match rest with
  | [] => false
  | token :: rest' =>
    if token.lexeme = "(" then
      castScan rest' (paren_count + 1)
    else if token.lexeme = ")" then
      if paren_count = 1 then
        match rest' with
        | next :: _ =>
          next.type = "IDENTIFIER" || next.type = "KEYWORD" ||
          next.type = "INT_LITERAL" || next.type = "STRING_LITERAL" ||
          next.type = "BOOLEAN_LITERAL" || next.type = "FLOAT_LITERAL" ||
          next.type = "SEPARATOR"
        | [] => false
      else
        castScan rest' (paren_count - 1)
    else
      castScan rest' paren_count

/-- `_lookahead_for_cast`: scan to the parenthesis that closes the group
and test the kind of the following token; the type inside the parentheses
is never actually parsed. -/
def lookaheadForCast (s : PState) : Bool :=
  castScan (s.tokens.drop (s.pos + 1)) 1

/-- The scanning loop of `_lookahead_for_lambda`, returning the token
suffix at the stopping position.  `temp_pos` starts at the old `self.pos`
(before the `self._advance()` side effect), so the opening parenthesis
itself is scanned and raises the counter to 2. -/
def lambdaScanRest (rest : List Token) (paren_count : Nat) : List Token :=
  match rest with
  | [] => []
  | token :: rest' =>
    if paren_count = 0 then rest
    else if token.lexeme = "(" then lambdaScanRest rest' (paren_count + 1)
    else if token.lexeme = ")" then lambdaScanRest rest' (paren_count - 1)
    else lambdaScanRest rest' paren_count

/-- `_lookahead_for_lambda`: note the `self._advance()` side effect on the
cursor, which persists even when the lookahead answers `False`. -/
def lookaheadForLambda : PM Bool := fun s =>
  let old_pos := s.pos
  let s1 := advanceState s
  let answer :=
    match lambdaScanRest (s1.tokens.drop old_pos) 1 with
    | t :: t' :: _ =>
        t.type = "OPERATOR" && t.lexeme = "-" && t'.type = "OPERATOR" && t'.lexeme = ">"
    | _ => false
  .ok answer s1

/-- `token.type.lower().replace('_literal', '')` from the literal branch of
`_parse_primary_expression`. -/
def literalTypeOf (t : String) : String :=
  (t.toLower).replace "_literal" ""

/-- Guard of the `while` loop in `parse`: a token is present and is not
the EOF marker. -/
def topLoopGuard (s : PState) : Bool :=
  match s.current_token with
  | none => false
  | some t => t.type ≠ "EOF"

/-- Guard of the member loops: `self.current_token and not
self._match("SEPARATOR", "\x7d")`. -/
def memberLoopGuard (s : PState) : Bool :=
  s.current_token.isSome && !(matchTok "SEPARATOR" (some "\x7d") s)

/-- The closed modifier set of `_parse_modifiers`. -/
def isModifierLexeme (x : String) : Bool :=
  x = "public" || x = "private" || x = "protected" || x = "static" ||
  x = "final" || x = "abstract" || x = "synchronized" || x = "volatile" ||
  x = "transient" || x = "native" || x = "strictfp"

/-- Guard of the statement loop inside `_parse_switch_case`. -/
def caseStmtsGuard (s : PState) : Bool :=
  s.current_token.isSome &&
  !(matchTok "KEYWORD" (some "case") s) &&
  !(matchTok "KEYWORD" (some "default") s) &&
  !(matchTok "SEPARATOR" (some "\x7d") s)

/-- Guard of the constant loop in `_parse_enum_constants`. -/
def enumConstGuard (s : PState) : Bool :=
  match s.current_token with
  | some t => t.type = "IDENTIFIER" && !(matchTok "SEPARATOR" (some "\x7d") s)
  | none => false

/-- Guard of the part-collecting loop in `_parse_import`. -/
def importPartsGuard (s : PState) : Bool :=
  match s.current_token with
  | some t => t.type = "IDENTIFIER" || t.type = "OPERATOR"
  | none => false

/-- Position of a node (the shared `position` field), used by the enum
constant-to-field conversion. -/
def positionOfNode : Node → Position
  | .astNode _ p _ _ => p
  | .identifier _ p _ _ => p
  | .typeNode _ p _ _ _ _ => p
  | .literal _ p _ _ _ _ => p
  | .binaryOperation _ p _ _ _ _ _ => p
  | .assignment _ p _ _ _ _ _ => p
  | .methodCall _ p _ _ _ _ _ => p
  | .parameter _ p _ _ _ => p
  | .variableDeclaration _ p _ _ _ _ _ => p
  | .fieldDeclaration _ p _ _ _ _ _ => p
  | .block _ p _ _ _ => p
  | .methodDeclaration _ p _ _ _ _ _ _ _ => p
  | .classDeclaration _ p _ _ _ _ _ _ _ _ => p
  | .program _ p _ _ _ _ _ => p

/-! ## The recursive-descent productions

Every Python method of `Parser` that calls back into the grammar becomes
one function of a `mutual` block, driven by a shared fuel argument.  Each
`while` loop becomes a companion `...Loop` function.  The bodies follow
the Python statement-for-statement. -/

mutual

/-- `parse`: build the `Program` node, then run the top-level loop. -/
def parseProgram : Nat → PM Node
  | 0 => throwE .outOfFuel
  | fuel + 1 => do
    let pos ← currentPosM
    let prog := Node.program .PROGRAM pos [] "" none [] []
    parseProgramLoop fuel prog

/-- The `while` loop of `parse`: as long as a non-EOF token is current,
run one protected iteration and continue with its updated program. -/
def parseProgramLoop : Nat → Node → PM Node
  | 0, _ => throwE .outOfFuel
  | fuel + 1, prog => fun s =>
    if topLoopGuard s then
      (do
        let prog' ← parseTopIteration fuel prog
        parseProgramLoop fuel prog') s
    else
      .ok prog s

/-- One iteration of the `parse` loop: the `try` body together with its
`except ParseError` handler, which either recovers (keeping the program
unchanged) or re-raises. -/
def parseTopIteration : Nat → Node → PM Node
  | 0, _ => throwE .outOfFuel
  | fuel + 1, prog =>
    catchParse (parseTopBody fuel prog)
      (fun e => do
        let recovered ← recoverFromError fuel
        if recovered then pure prog else throwE e)

/-- The body of one iteration of the `parse` loop (the protected region of
its `try`). -/
def parseTopBody : Nat → Node → PM Node
  | 0, _ => throwE .outOfFuel
  | fuel + 1, prog => do
    pushRecoveryPoint
    let s0 ← getS
    let start_pos := s0.pos
    let modifiers ← parseModifiers fuel
    let s1 ← getS
    let prog' ←
      if matchTok "KEYWORD" (some "import") s1 then do
        let import_stmt ← parseImport fuel
        pure (prog.appendImport import_stmt)
      else if matchTok "KEYWORD" (some "class") s1 then do
        let class_decl ← parseClassDeclarationWithModifiers fuel modifiers
        pure (prog.appendClass class_decl)
      else if matchTok "KEYWORD" (some "interface") s1 then do
        let interface_decl ← parseInterfaceDeclarationWithModifiers fuel modifiers
        pure (prog.appendClass interface_decl)
      else if matchTok "KEYWORD" (some "enum") s1 then do
        let enum_decl ← parseEnumDeclarationWithModifiers fuel modifiers
        pure (prog.appendClass enum_decl)
      else do
        resetM start_pos
        advanceM
        pure prog
    popRecoveryPoint
    pure prog'

/-- `_parse_modifiers` (the `while` loop, returning the collected list). -/
def parseModifiers : Nat → PM (List String)
  | 0 => throwE .outOfFuel
  | fuel + 1 => parseModifiersLoop fuel []

/-- Loop of `_parse_modifiers`. -/
def parseModifiersLoop : Nat → List String → PM (List String)
  | 0, _ => throwE .outOfFuel
  | fuel + 1, acc => do
    let s ← getS
    match s.current_token with
    | some t =>
      if t.type = "KEYWORD" then
        if isModifierLexeme t.lexeme then do
          advanceM
          parseModifiersLoop fuel (acc ++ [t.lexeme])
        else pure acc
      else pure acc
    | none => pure acc

/-- `_parse_import`. -/
def parseImport : Nat → PM String
  | 0 => throwE .outOfFuel
  | fuel + 1 => do
    let _ ← expectTok "KEYWORD" (some "import")
    let s ← getS
    let is_static ← if matchTok "KEYWORD" (some "static") s then do
        advanceM; pure true
      else pure false
    let parts ← parseImportParts fuel []
    let _ ← expectTok "SEPARATOR" (some ";")
    let import_str := String.join parts
    pure (if is_static then "static " ++ import_str else import_str)

/-- The part-collecting loop of `_parse_import`. -/
def parseImportParts : Nat → List String → PM (List String)
  | 0, _ => throwE .outOfFuel
  | fuel + 1, acc => do
    let s ← getS
    if importPartsGuard s then
      if matchTok "IDENTIFIER" none s then do
        match s.current_token with
        | some t => do advanceM; parseImportParts fuel (acc ++ [t.lexeme])
        | none => pure acc
      else if matchTok "OPERATOR" (some ".") s then do
        advanceM; parseImportParts fuel (acc ++ ["."])
      else if matchTok "OPERATOR" (some "*") s then do
        advanceM; pure (acc ++ ["*"])
      else pure acc
    else pure acc

/-- `_parse_class_declaration_with_modifiers`. -/
def parseClassDeclarationWithModifiers : Nat → List String → PM Node
  | 0, _ => throwE .outOfFuel
  | fuel + 1, modifiers => do
    let pos ← currentPosM
    let _ ← expectTok "KEYWORD" (some "class")
    let nameTok ← expectTok "IDENTIFIER" none
    let class_decl := Node.classDeclaration .CLASS_DECLARATION pos [] nameTok.lexeme
        modifiers none [] [] [] []
    let s ← getS
    let class_decl ←
      if matchTok "KEYWORD" (some "extends") s then do
        let e ← parseExtendsClause fuel
        pure (class_decl.addChild (some e))
      else pure class_decl
    let s ← getS
    let class_decl ←
      if matchTok "KEYWORD" (some "implements") s then do
        let i ← parseImplementsClause fuel
        pure (class_decl.addChild (some i))
      else pure class_decl
    let _ ← expectTok "SEPARATOR" (some "\x7b")
    let class_decl ← parseClassMemberLoop fuel class_decl
    let _ ← expectTok "SEPARATOR" (some "\x7d")
    pure class_decl

/-- The member loop of `_parse_class_declaration_with_modifiers`:
`_parse_class_member` itself catches everything, so the `except
ParseError` handler around it is reached only by errors it re-raises
(there are none) — malformed members surface as `None`, upon which the
loop advances a single token. -/
def parseClassMemberLoop : Nat → Node → PM Node
  | 0, _ => throwE .outOfFuel
  | fuel + 1, cd => fun s =>
    if memberLoopGuard s then
      (do
        let cd' ← catchParse
          (do
            pushRecoveryPoint
            let element ← parseClassMember fuel
            let cd' ←
              match element with
              | some el =>
                pure (if el.isFieldDeclaration then cd.appendField el
                      else if el.isMethodDeclaration then cd.appendMethod el
                      else cd)
              | none => do advanceM; pure cd
            popRecoveryPoint
            pure cd')
          (fun e => do
            let recovered ← recoverFromError fuel
            if recovered then pure cd else throwE e)
        parseClassMemberLoop fuel cd') s
    else .ok cd s

/-- `_parse_interface_declaration_with_modifiers`. -/
def parseInterfaceDeclarationWithModifiers : Nat → List String → PM Node
  | 0, _ => throwE .outOfFuel
  | fuel + 1, modifiers => do
    let pos ← currentPosM
    let _ ← expectTok "KEYWORD" (some "interface")
    let nameTok ← expectTok "IDENTIFIER" none
    let interface_decl := Node.classDeclaration .CLASS_DECLARATION pos [] nameTok.lexeme
        modifiers none [] [] [] []
    let s ← getS
    let interface_decl ←
      if matchTok "KEYWORD" (some "extends") s then do
        let e ← parseExtendsInterfaceClause fuel
        pure (interface_decl.addChild (some e))
      else pure interface_decl
    let _ ← expectTok "SEPARATOR" (some "\x7b")
    let interface_decl ← parseInterfaceMemberLoop fuel interface_decl
    let _ ← expectTok "SEPARATOR" (some "\x7d")
    pure interface_decl

/-- The member loop of the interface declaration; note there is no
token-skipping `else` branch when a member comes back as `None`. -/
def parseInterfaceMemberLoop : Nat → Node → PM Node
  | 0, _ => throwE .outOfFuel
  | fuel + 1, cd => fun s =>
    if memberLoopGuard s then
      (do
        let cd' ← catchParse
          (do
            pushRecoveryPoint
            let element ← parseInterfaceMember fuel
            let cd' :=
              match element with
              | some el =>
                if el.isFieldDeclaration then cd.appendField el
                else if el.isMethodDeclaration then cd.appendMethod el
                else cd
              | none => cd
            popRecoveryPoint
            pure cd')
          (fun e => do
            let recovered ← recoverFromError fuel
            if recovered then pure cd else throwE e)
        parseInterfaceMemberLoop fuel cd') s
    else .ok cd s

/-- `_parse_enum_declaration_with_modifiers`. -/
def parseEnumDeclarationWithModifiers : Nat → List String → PM Node
  | 0, _ => throwE .outOfFuel
  | fuel + 1, modifiers => do
    let pos ← currentPosM
    let _ ← expectTok "KEYWORD" (some "enum")
    let nameTok ← expectTok "IDENTIFIER" none
    let enum_decl := Node.classDeclaration .CLASS_DECLARATION pos [] nameTok.lexeme
        modifiers none [] [] [] []
    let s ← getS
    let enum_decl ←
      if matchTok "KEYWORD" (some "implements") s then do
        let i ← parseImplementsClause fuel
        pure (enum_decl.addChild (some i))
      else pure enum_decl
    let _ ← expectTok "SEPARATOR" (some "\x7b")
    let constants ← parseEnumConstants fuel
    let enum_decl := constants.foldl
      (fun cd c =>
        cd.appendField (Node.fieldDeclaration .FIELD_DECLARATION (positionOfNode c) []
          (c.nameOf) (some (Node.typeNode .TYPE (positionOfNode c) [] nameTok.lexeme false []))
          none ["public", "static", "final"]))
      enum_decl
    let enum_decl ← parseEnumMemberLoop fuel enum_decl
    let _ ← expectTok "SEPARATOR" (some "\x7d")
    pure enum_decl

/-- The trailing member loop of the enum declaration (again without a
token-skipping `else`). -/
def parseEnumMemberLoop : Nat → Node → PM Node
  | 0, _ => throwE .outOfFuel
  | fuel + 1, cd => fun s =>
    if memberLoopGuard s then
      (do
        let cd' ← catchParse
          (do
            pushRecoveryPoint
            let element ← parseClassMember fuel
            let cd' :=
              match element with
              | some el =>
                if el.isFieldDeclaration then cd.appendField el
                else if el.isMethodDeclaration then cd.appendMethod el
                else cd
              | none => cd
            popRecoveryPoint
            pure cd')
          (fun e => do
            let recovered ← recoverFromError fuel
            if recovered then pure cd else throwE e)
        parseEnumMemberLoop fuel cd') s
    else .ok cd s

/-- `_parse_enum_constants`. -/
def parseEnumConstants : Nat → PM (List Node)
  | 0 => throwE .outOfFuel
  | fuel + 1 => do
    let constants ← parseEnumConstantsLoop fuel []
    let s ← getS
    if matchTok "SEPARATOR" (some ";") s then do
      advanceM
      pure constants
    else pure constants

/-- The constant-collecting loop of `_parse_enum_constants`. -/
def parseEnumConstantsLoop : Nat → List Node → PM (List Node)
  | 0, _ => throwE .outOfFuel
  | fuel + 1, acc => do
    let s ← getS
    if enumConstGuard s then
      match s.current_token with
      | some t => do
        let pos ← currentPosM
        let constant := Node.identifier .IDENTIFIER pos [] t.lexeme
        advanceM
        let s1 ← getS
        if matchTok "SEPARATOR" (some ",") s1 then do
          advanceM
          let s2 ← getS
          if matchTok "SEPARATOR" (some "\x7d") s2 then
            pure (acc ++ [constant])
          else
            parseEnumConstantsLoop fuel (acc ++ [constant])
        else pure (acc ++ [constant])
      | none => pure acc
    else pure acc

/-- `_parse_extends_clause`. -/
def parseExtendsClause : Nat → PM Node
  | 0 => throwE .outOfFuel
  | fuel + 1 => do
    let pos ← currentPosM
    let _ ← expectTok "KEYWORD" (some "extends")
    let extends_node := Node.astNode .IDENTIFIER pos [] "extends"
    let base_type ← parseType fuel
    pure (extends_node.addChild (some base_type))

/-- `_parse_implements_clause`. -/
def parseImplementsClause : Nat → PM Node
  | 0 => throwE .outOfFuel
  | fuel + 1 => do
    let pos ← currentPosM
    let _ ← expectTok "KEYWORD" (some "implements")
    parseTypeListLoop fuel (Node.astNode .IDENTIFIER pos [] "implements")

/-- `_parse_extends_interface_clause`. -/
def parseExtendsInterfaceClause : Nat → PM Node
  | 0 => throwE .outOfFuel
  | fuel + 1 => do
    let pos ← currentPosM
    let _ ← expectTok "KEYWORD" (some "extends")
    parseTypeListLoop fuel (Node.astNode .IDENTIFIER pos [] "extends")

/-- The shared `type (',' type)*` accumulation loop of the
extends/implements/throws clauses. -/
def parseTypeListLoop : Nat → Node → PM Node
  | 0, _ => throwE .outOfFuel
  | fuel + 1, node => do
    let t ← parseType fuel
    let node := node.addChild (some t)
    let s ← getS
    if matchTok "SEPARATOR" (some ",") s then do
      advanceM
      parseTypeListLoop fuel node
    else pure node

/-- `_parse_interface_member`. -/
def parseInterfaceMember : Nat → PM (Option Node)
  | 0 => throwE .outOfFuel
  | fuel + 1 => fun s =>
    let start_pos := s.pos
    (catchAll
      (do
        let modifiers ← parseModifiers fuel
        let s1 ← getS
        let modifiers ←
          match s1.current_token with
          | some t =>
            if matchTok "KEYWORD" none s1 && (t.lexeme = "default" || t.lexeme = "static") then do
              advanceM
              pure (modifiers ++ [t.lexeme])
            else pure modifiers
          | none => pure modifiers
        let member_type ← parseType fuel
        let s2 ← getS
        match s2.current_token with
        | some t =>
          if t.type ≠ "IDENTIFIER" then do
            resetM start_pos
            pure none
          else do
            advanceM
            let s3 ← getS
            match s3.current_token with
            | some nxt =>
              if nxt.lexeme = "(" then do
                let pos ← currentPosM
                let m ← parseInterfaceMethodDeclaration fuel pos modifiers member_type t.lexeme
                pure (some m)
              else do
                let pos ← currentPosM
                let f ← parseInterfaceFieldDeclaration fuel pos modifiers member_type t.lexeme
                pure (some f)
            | none => do
              let pos ← currentPosM
              let f ← parseInterfaceFieldDeclaration fuel pos modifiers member_type t.lexeme
              pure (some f)
        | none => do
          resetM start_pos
          pure none)
      (fun _ => do
        resetM start_pos
        pure none)) s

/-- `_parse_interface_method_declaration`. -/
def parseInterfaceMethodDeclaration :
    Nat → Position → List String → Node → String → PM Node
  | 0, _, _, _, _ => throwE .outOfFuel
  | fuel + 1, pos, modifiers, return_type, method_name => do
    let method := Node.methodDeclaration .METHOD_DECLARATION pos [] method_name
        (some return_type) [] none modifiers []
    let _ ← expectTok "SEPARATOR" (some "(")
    let params ← parseParameters fuel
    let method := method.setParameters params
    let _ ← expectTok "SEPARATOR" (some ")")
    let s ← getS
    if matchTok "SEPARATOR" (some "\x7b") s then do
      let body ← parseBlock fuel
      pure (method.setBody body)
    else if matchTok "SEPARATOR" (some ";") s then do
      advanceM
      pure method
    else do
      let pos' ← currentPosM
      pure (method.setBody (Node.block .BLOCK pos' [] "" []))

/-- `_parse_interface_field_declaration`. -/
def parseInterfaceFieldDeclaration :
    Nat → Position → List String → Node → String → PM Node
  | 0, _, _, _, _ => throwE .outOfFuel
  | fuel + 1, pos, modifiers, field_type, field_name => do
    let field := Node.fieldDeclaration .FIELD_DECLARATION pos [] field_name
        (some field_type) none modifiers
    let s ← getS
    let field ←
      if matchTok "OPERATOR" (some "=") s then do
        advanceM
        let v ← parseExpression fuel
        pure (field.setFieldValue v)
      else pure field
    let _ ← expectTok "SEPARATOR" (some ";")
    pure field

/-- `_parse_type`. -/
def parseType : Nat → PM Node
  | 0 => throwE .outOfFuel
  | fuel + 1 => do
    let pos ← currentPosM
    let s ← getS
    match s.current_token with
    | none => throwE (.unexpectedToken "тип (KEYWORD или IDENTIFIER)" "EOF" 1 1)
    | some t =>
      if t.type = "KEYWORD" || t.type = "IDENTIFIER" then do
        advanceM
        let type_node := Node.typeNode .TYPE pos [] t.lexeme false []
        let s1 ← getS
        let type_node ←
          if matchTok "OPERATOR" (some "<") s1 then do
            let gs ← parseGenericParameters fuel
            pure (type_node.setGenericTypes gs)
          else pure type_node
        parseTypeArrayLoop fuel type_node
      else
        throwE (.unexpectedToken "тип (KEYWORD или IDENTIFIER)" t.type t.line t.column)

/-- The `('[' ']')*` loop of `_parse_type`. -/
def parseTypeArrayLoop : Nat → Node → PM Node
  | 0, _ => throwE .outOfFuel
  | fuel + 1, type_node => do
    let s ← getS
    if matchTok "SEPARATOR" (some "[") s then do
      advanceM
      let _ ← expectTok "SEPARATOR" (some "]")
      parseTypeArrayLoop fuel type_node.setIsArray
    else pure type_node

/-- `_parse_generic_parameters`. -/
def parseGenericParameters : Nat → PM (List Node)
  | 0 => throwE .outOfFuel
  | fuel + 1 => do
    let _ ← expectTok "OPERATOR" (some "<")
    let gs ← parseGenericParametersLoop fuel []
    let _ ← expectTok "OPERATOR" (some ">")
    pure gs

/-- The type-collecting loop of `_parse_generic_parameters`. -/
def parseGenericParametersLoop : Nat → List Node → PM (List Node)
  | 0, _ => throwE .outOfFuel
  | fuel + 1, acc => do
    let g ← parseType fuel
    let s ← getS
    if matchTok "SEPARATOR" (some ",") s then do
      advanceM
      parseGenericParametersLoop fuel (acc ++ [g])
    else pure (acc ++ [g])

/-- `_parse_class_member`.  The outer `except Exception` and the inner
`except ParseError` both reset to the member's start and yield `None`. -/
def parseClassMember : Nat → PM (Option Node)
  | 0 => throwE .outOfFuel
  | fuel + 1 => fun s =>
    let start_pos := s.pos
    (catchAll
      (do
        let modifiers ← parseModifiers fuel
        let s1 ← getS
        if matchTok "SEPARATOR" (some "\x7b") s1 && modifiers.contains "static" then do
          let m ← parseStaticInitializer fuel modifiers
          pure (some m)
        else if matchTok "SEPARATOR" (some "\x7b") s1 && modifiers.isEmpty then do
          let m ← parseInstanceInitializer fuel
          pure (some m)
        else
          match s1.current_token with
          | none => do
            resetM start_pos
            pure none
          | some t =>
            if t.type = "IDENTIFIER" && lookaheadForConstructor s1 then do
              let c ← parseConstructorDeclaration fuel modifiers
              pure (some c)
            else
              catchParse
                (do
                  let member_type ← parseType fuel
                  let s2 ← getS
                  match s2.current_token with
                  | some t2 =>
                    if t2.type ≠ "IDENTIFIER" then do
                      resetM start_pos
                      pure none
                    else do
                      advanceM
                      let s3 ← getS
                      match s3.current_token with
                      | some nxt =>
                        if nxt.lexeme = "(" then do
                          let pos ← currentPosM
                          let m ← parseMethodDeclarationComplete fuel pos modifiers member_type t2.lexeme
                          pure (some m)
                        else do
                          let pos ← currentPosM
                          let f ← parseFieldDeclarationComplete fuel pos modifiers member_type t2.lexeme
                          pure (some f)
                      | none => do
                        let pos ← currentPosM
                        let f ← parseFieldDeclarationComplete fuel pos modifiers member_type t2.lexeme
                        pure (some f)
                  | none => do
                    resetM start_pos
                    pure none)
                (fun _ => do
                  resetM start_pos
                  pure none))
      (fun _ => do
        resetM start_pos
        pure none)) s

/-- `_parse_static_initializer`. -/
def parseStaticInitializer : Nat → List String → PM Node
  | 0, _ => throwE .outOfFuel
  | fuel + 1, modifiers => do
    let pos ← currentPosM
    let static_block := Node.methodDeclaration .METHOD_DECLARATION pos []
        "<static_initializer>" none [] none modifiers []
    let body ← parseBlock fuel
    pure (static_block.setBody body)

/-- `_parse_instance_initializer`. -/
def parseInstanceInitializer : Nat → PM Node
  | 0 => throwE .outOfFuel
  | fuel + 1 => do
    let pos ← currentPosM
    let instance_block := Node.methodDeclaration .METHOD_DECLARATION pos []
        "<instance_initializer>" none [] none [] []
    let body ← parseBlock fuel
    pure (instance_block.setBody body)

/-- `_parse_method_declaration_complete`. -/
def parseMethodDeclarationComplete :
    Nat → Position → List String → Node → String → PM Node
  | 0, _, _, _, _ => throwE .outOfFuel
  | fuel + 1, pos, modifiers, return_type, method_name => do
    let method := Node.methodDeclaration .METHOD_DECLARATION pos [] method_name
        (some return_type) [] none modifiers []
    let _ ← expectTok "SEPARATOR" (some "(")
    let params ← parseParameters fuel
    let method := method.setParameters params
    let _ ← expectTok "SEPARATOR" (some ")")
    let s ← getS
    let method ←
      if matchTok "KEYWORD" (some "throws") s then do
        let th ← parseThrowsClause fuel
        pure (method.addChild (some th))
      else pure method
    let s1 ← getS
    if matchTok "SEPARATOR" (some "\x7b") s1 then do
      let body ← parseBlock fuel
      pure (method.setBody body)
    else if matchTok "SEPARATOR" (some ";") s1 then do
      advanceM
      pure method
    else do
      let pos' ← currentPosM
      pure (method.setBody (Node.block .BLOCK pos' [] "" []))

/-- `_parse_throws_clause`. -/
def parseThrowsClause : Nat → PM Node
  | 0 => throwE .outOfFuel
  | fuel + 1 => do
    let pos ← currentPosM
    let _ ← expectTok "KEYWORD" (some "throws")
    parseTypeListLoop fuel (Node.astNode .IDENTIFIER pos [] "throws")

/-- `_parse_parameters`. -/
def parseParameters : Nat → PM (List Node)
  | 0 => throwE .outOfFuel
  | fuel + 1 => do
    let s ← getS
    if matchTok "SEPARATOR" (some ")") s then pure []
    else parseParametersLoop fuel []

/-- The parameter-collecting loop of `_parse_parameters`. -/
def parseParametersLoop : Nat → List Node → PM (List Node)
  | 0, _ => throwE .outOfFuel
  | fuel + 1, acc => do
    let param_type ← parseType fuel
    let s ← getS
    let is_varargs ←
      if matchTok "OPERATOR" (some "...") s then do
        advanceM
        pure true
      else pure false
    let s1 ← getS
    match s1.current_token with
    | some t =>
      if t.type ≠ "IDENTIFIER" then pure acc
      else do
        advanceM
        let pos ← currentPosM
        let param := Node.parameter .PARAMETER pos [] t.lexeme (some param_type)
        let param ←
          if is_varargs then do
            let pos' ← currentPosM
            pure (param.addChild (some (Node.identifier .IDENTIFIER pos' [] "...")))
          else pure param
        let s2 ← getS
        if matchTok "SEPARATOR" (some ",") s2 then do
          advanceM
          parseParametersLoop fuel (acc ++ [param])
        else pure (acc ++ [param])
    | none => pure acc

/-- `_parse_constructor_declaration`; note the node it builds is a plain
`MethodDeclaration`, not a `ConstructorDeclaration`. -/
def parseConstructorDeclaration : Nat → List String → PM Node
  | 0, _ => throwE .outOfFuel
  | fuel + 1, modifiers => do
    let pos ← currentPosM
    let nameTok ← expectTok "IDENTIFIER" none
    let constructor := Node.methodDeclaration .METHOD_DECLARATION pos [] nameTok.lexeme
        none [] none modifiers []
    let _ ← expectTok "SEPARATOR" (some "(")
    let params ← parseParameters fuel
    let constructor := constructor.setParameters params
    let _ ← expectTok "SEPARATOR" (some ")")
    let s ← getS
    let constructor ←
      if matchTok "KEYWORD" (some "throws") s then do
        let th ← parseThrowsClause fuel
        pure (constructor.addChild (some th))
      else pure constructor
    let s1 ← getS
    if matchTok "SEPARATOR" (some "\x7b") s1 then do
      let body ← parseBlock fuel
      pure (constructor.setBody body)
    else do
      let pos' ← currentPosM
      pure (constructor.setBody (Node.block .BLOCK pos' [] "" []))

/-- `_parse_field_declaration_complete`. -/
def parseFieldDeclarationComplete :
    Nat → Position → List String → Node → String → PM Node
  | 0, _, _, _, _ => throwE .outOfFuel
  | fuel + 1, pos, modifiers, field_type, field_name => do
    let field := Node.fieldDeclaration .FIELD_DECLARATION pos [] field_name
        (some field_type) none modifiers
    let s ← getS
    let field ←
      if matchTok "OPERATOR" (some "=") s then do
        advanceM
        let v ← parseExpression fuel
        pure (field.setFieldValue v)
      else pure field
    let _ ← expectTok "SEPARATOR" (some ";")
    pure field

/-- `_parse_block`. -/
def parseBlock : Nat → PM Node
  | 0 => throwE .outOfFuel
  | fuel + 1 => do
    let pos ← currentPosM
    let _ ← expectTok "SEPARATOR" (some "\x7b")
    let blk := Node.block .BLOCK pos [] "" []
    let blk ← parseBlockLoop fuel pos blk
    let _ ← expectTok "SEPARATOR" (some "\x7d")
    pure blk

/-- The statement loop of `_parse_block`, with its recovery-protected
`try` and the `ParseError` raised on an unterminated block. -/
def parseBlockLoop : Nat → Position → Node → PM Node
  | 0, _, _ => throwE .outOfFuel
  | fuel + 1, pos, blk => fun s =>
    if matchTok "SEPARATOR" (some "\x7d") s then .ok blk s
    else
      match s.current_token with
      | some _ =>
        (do
          let blk' ← catchParse
            (do
              pushRecoveryPoint
              let stmt ← parseStatement fuel
              let blk' :=
                match stmt with
                | some st => blk.appendStatement st
                | none => blk
              popRecoveryPoint
              pure blk')
            (fun e => do
              let recovered ← recoverFromError fuel
              if recovered then pure blk else throwE e)
          parseBlockLoop fuel pos blk') s
      | none => .err (.parseError "Незакрытый блок" pos.line pos.column) s

/-- `_parse_statement`. -/
def parseStatement : Nat → PM (Option Node)
  | 0 => throwE .outOfFuel
  | fuel + 1 => do
    let s ← getS
    match s.current_token with
    | none => pure none
    | some _ => do
      let isLocal ← isLocalVariableDeclaration fuel
      if isLocal then do
        let v ← parseLocalVariableDeclaration fuel
        pure (some v)
      else do
        let s1 ← getS
        if matchTok "KEYWORD" (some "return") s1 then do
          let n ← parseReturnStatement fuel
          pure (some n)
        else if matchTok "KEYWORD" (some "if") s1 then do
          let n ← parseIfStatement fuel
          pure (some n)
        else if matchTok "KEYWORD" (some "while") s1 then do
          let n ← parseWhileStatement fuel
          pure (some n)
        else if matchTok "KEYWORD" (some "for") s1 then do
          let n ← parseForStatement fuel
          pure (some n)
        else if matchTok "KEYWORD" (some "try") s1 then do
          let n ← parseTryStatement fuel
          pure (some n)
        else if matchTok "KEYWORD" (some "throw") s1 then do
          let n ← parseThrowStatement fuel
          pure (some n)
        else if matchTok "KEYWORD" (some "switch") s1 then do
          let n ← parseSwitchStatement fuel
          pure (some n)
        else if matchTok "KEYWORD" (some "synchronized") s1 then do
          let n ← parseSynchronizedStatement fuel
          pure (some n)
        else if matchTok "SEPARATOR" (some "\x7b") s1 then do
          let n ← parseBlock fuel
          pure (some n)
        else do
          let isVar ← isVariableDeclarationM fuel
          if isVar then do
            let n ← parseVariableDeclaration fuel
            pure (some n)
          else
            parseExpressionStatement fuel

/-- `_parse_switch_statement` (builds a generic `BLOCK` node). -/
def parseSwitchStatement : Nat → PM Node
  | 0 => throwE .outOfFuel
  | fuel + 1 => do
    let pos ← currentPosM
    let _ ← expectTok "KEYWORD" (some "switch")
    let _ ← expectTok "SEPARATOR" (some "(")
    let switch_expr ← parseExpression fuel
    let _ ← expectTok "SEPARATOR" (some ")")
    let _ ← expectTok "SEPARATOR" (some "\x7b")
    let switch_node := (Node.astNode .BLOCK pos [] "").addChild switch_expr
    let switch_node ← parseSwitchLoop fuel switch_node
    let _ ← expectTok "SEPARATOR" (some "\x7d")
    pure switch_node

/-- The case-collecting loop of `_parse_switch_statement`. -/
def parseSwitchLoop : Nat → Node → PM Node
  | 0, _ => throwE .outOfFuel
  | fuel + 1, node => do
    let s ← getS
    if memberLoopGuard s then
      if matchTok "KEYWORD" (some "case") s || matchTok "KEYWORD" (some "default") s then do
        let case_node ← parseSwitchCase fuel
        parseSwitchLoop fuel (node.addChild case_node)
      else do
        advanceM
        parseSwitchLoop fuel node
    else pure node

/-- `_parse_switch_case` (returns `None` when neither keyword matches). -/
def parseSwitchCase : Nat → PM (Option Node)
  | 0 => throwE .outOfFuel
  | fuel + 1 => do
    let pos ← currentPosM
    let s ← getS
    if matchTok "KEYWORD" (some "case") s then do
      advanceM
      let case_expr ← parseExpression fuel
      let _ ← expectTok "SEPARATOR" (some ":")
      let case_node := (Node.astNode .BLOCK pos [] "").addChild case_expr
      let case_node ← parseCaseStmtsLoop fuel case_node
      pure (some case_node)
    else if matchTok "KEYWORD" (some "default") s then do
      advanceM
      let _ ← expectTok "SEPARATOR" (some ":")
      let default_node := Node.astNode .BLOCK pos [] ""
      let default_node ← parseCaseStmtsLoop fuel default_node
      pure (some default_node)
    else pure none

/-- The statement loop shared by the two arms of `_parse_switch_case`. -/
def parseCaseStmtsLoop : Nat → Node → PM Node
  | 0, _ => throwE .outOfFuel
  | fuel + 1, node => do
    let s ← getS
    if caseStmtsGuard s then do
      let stmt ← parseStatement fuel
      parseCaseStmtsLoop fuel (node.addChild stmt)
    else pure node

/-- `_parse_synchronized_statement`. -/
def parseSynchronizedStatement : Nat → PM Node
  | 0 => throwE .outOfFuel
  | fuel + 1 => do
    let pos ← currentPosM
    let _ ← expectTok "KEYWORD" (some "synchronized")
    let _ ← expectTok "SEPARATOR" (some "(")
    let sync_expr ← parseExpression fuel
    let _ ← expectTok "SEPARATOR" (some ")")
    let sync_block ← parseBlock fuel
    let sync_node := (Node.astNode .BLOCK pos [] "").addChild sync_expr
    pure (sync_node.addChild (some sync_block))

/-- `_is_local_variable_declaration`.  After speculatively parsing a type,
the current token is the candidate identifier itself, so the subsequent
`_match` tests for `=`/`;` examine that identifier and always fail: the
helper can only answer `False`.  The `finally` clause restores the saved
position on every path. -/
def isLocalVariableDeclaration : Nat → PM Bool
  | 0 => throwE .outOfFuel
  | fuel + 1 => fun s =>
    let start_pos := s.pos
    match parseType fuel s with
    | .ok _ s1 =>
      let answer :=
        match s1.current_token with
        | some t =>
          t.type = "IDENTIFIER" &&
          (matchTok "OPERATOR" (some "=") s1 || matchTok "SEPARATOR" (some ";") s1)
        | none => false
      .ok answer (resetState start_pos s1)
    | .err .outOfFuel s1 => .err .outOfFuel (resetState start_pos s1)
    | .err _ s1 => .ok false (resetState start_pos s1)

/-- `_parse_local_variable_declaration`.  The missing-identifier branch
calls `UnexpectedTokenError` with two arguments, which in Python raises
`TypeError`. -/
def parseLocalVariableDeclaration : Nat → PM Node
  | 0 => throwE .outOfFuel
  | fuel + 1 => do
    let pos ← currentPosM
    let var_type ← parseType fuel
    let s ← getS
    match s.current_token with
    | some t =>
      if t.type ≠ "IDENTIFIER" then throwE .typeError
      else do
        advanceM
        let var_decl := (Node.variableDeclaration .VARIABLE_DECLARATION pos [] t.lexeme
            none none []).addChild (some var_type)
        let s1 ← getS
        let var_decl ←
          if matchTok "OPERATOR" (some "=") s1 then do
            advanceM
            let v ← parseExpression fuel
            pure (var_decl.addChild v)
          else pure var_decl
        let _ ← expectTok "SEPARATOR" (some ";")
        pure var_decl
    | none => throwE .typeError

/-- `_parse_try_statement`: a generic `BLOCK` node holding the try block,
any catch clauses and an optional finally block as plain children; nothing
checks that at least one handler is present. -/
def parseTryStatement : Nat → PM Node
  | 0 => throwE .outOfFuel
  | fuel + 1 => do
    let pos ← currentPosM
    let _ ← expectTok "KEYWORD" (some "try")
    let try_node := Node.astNode .BLOCK pos [] ""
    let try_block ← parseBlock fuel
    let try_node := try_node.addChild (some try_block)
    let try_node ← parseCatchLoop fuel try_node
    let s ← getS
    if matchTok "KEYWORD" (some "finally") s then do
      let f ← parseFinallyClause fuel
      pure (try_node.addChild (some f))
    else pure try_node

/-- The catch-clause loop of `_parse_try_statement`. -/
def parseCatchLoop : Nat → Node → PM Node
  | 0, _ => throwE .outOfFuel
  | fuel + 1, node => do
    let s ← getS
    if matchTok "KEYWORD" (some "catch") s then do
      let c ← parseCatchClause fuel
      parseCatchLoop fuel (node.addChild (some c))
    else pure node

/-- `_parse_catch_clause` (two-argument `UnexpectedTokenError` again means
`TypeError` on a missing identifier). -/
def parseCatchClause : Nat → PM Node
  | 0 => throwE .outOfFuel
  | fuel + 1 => do
    let pos ← currentPosM
    let _ ← expectTok "KEYWORD" (some "catch")
    let _ ← expectTok "SEPARATOR" (some "(")
    let exception_type ← parseType fuel
    let s ← getS
    match s.current_token with
    | some t =>
      if t.type ≠ "IDENTIFIER" then throwE .typeError
      else do
        advanceM
        let _ ← expectTok "SEPARATOR" (some ")")
        let catch_block ← parseBlock fuel
        let param_node := Node.parameter .PARAMETER pos [] t.lexeme (some exception_type)
        let catch_node := (Node.astNode .BLOCK pos [] "").addChild (some param_node)
        pure (catch_node.addChild (some catch_block))
    | none => throwE .typeError

/-- `_parse_finally_clause`. -/
def parseFinallyClause : Nat → PM Node
  | 0 => throwE .outOfFuel
  | fuel + 1 => do
    let _ ← currentPosM
    let _ ← expectTok "KEYWORD" (some "finally")
    parseBlock fuel

/-- `_is_variable_declaration` (speculative type parse, `finally` reset). -/
def isVariableDeclarationM : Nat → PM Bool
  | 0 => throwE .outOfFuel
  | fuel + 1 => fun s =>
    let start_pos := s.pos
    match parseType fuel s with
    | .ok _ s1 =>
      let answer :=
        match s1.current_token with
        | some t => t.type = "IDENTIFIER"
        | none => false
      .ok answer (resetState start_pos s1)
    | .err .outOfFuel s1 => .err .outOfFuel (resetState start_pos s1)
    | .err _ s1 => .ok false (resetState start_pos s1)

/-- `_parse_variable_declaration` (this copy raises a well-formed
`UnexpectedTokenError`). -/
def parseVariableDeclaration : Nat → PM Node
  | 0 => throwE .outOfFuel
  | fuel + 1 => do
    let pos ← currentPosM
    let var_type ← parseType fuel
    let s ← getS
    match s.current_token with
    | some t =>
      if t.type ≠ "IDENTIFIER" then
        throwE (.unexpectedToken "IDENTIFIER" t.type t.line t.column)
      else do
        advanceM
        let var_decl := (Node.variableDeclaration .VARIABLE_DECLARATION pos [] t.lexeme
            none none []).addChild (some var_type)
        let s1 ← getS
        let var_decl ←
          if matchTok "OPERATOR" (some "=") s1 then do
            advanceM
            let v ← parseExpression fuel
            pure (var_decl.addChild v)
          else pure var_decl
        let _ ← expectTok "SEPARATOR" (some ";")
        pure var_decl
    | none => throwE (.unexpectedToken "IDENTIFIER" "EOF" 1 1)

/-- `_parse_if_statement`. -/
def parseIfStatement : Nat → PM Node
  | 0 => throwE .outOfFuel
  | fuel + 1 => do
    let pos ← currentPosM
    let _ ← expectTok "KEYWORD" (some "if")
    let _ ← expectTok "SEPARATOR" (some "(")
    let condition ← parseExpression fuel
    let _ ← expectTok "SEPARATOR" (some ")")
    let then_branch ← parseStatement fuel
    let if_node := ((Node.astNode .IF_STATEMENT pos [] "").addChild condition).addChild then_branch
    let s ← getS
    if matchTok "KEYWORD" (some "else") s then do
      advanceM
      let else_branch ← parseStatement fuel
      pure (if_node.addChild else_branch)
    else pure if_node

/-- `_parse_while_statement`. -/
def parseWhileStatement : Nat → PM Node
  | 0 => throwE .outOfFuel
  | fuel + 1 => do
    let pos ← currentPosM
    let _ ← expectTok "KEYWORD" (some "while")
    let _ ← expectTok "SEPARATOR" (some "(")
    let condition ← parseExpression fuel
    let _ ← expectTok "SEPARATOR" (some ")")
    let body ← parseStatement fuel
    pure (((Node.astNode .WHILE_STATEMENT pos [] "").addChild condition).addChild body)

/-- `_parse_for_statement`: only the three-clause form exists; there is no
for-each branch anywhere in the function. -/
def parseForStatement : Nat → PM Node
  | 0 => throwE .outOfFuel
  | fuel + 1 => do
    let pos ← currentPosM
    let _ ← expectTok "KEYWORD" (some "for")
    let _ ← expectTok "SEPARATOR" (some "(")
    let for_node := Node.astNode .FOR_STATEMENT pos [] ""
    let s ← getS
    let for_node ←
      if !(matchTok "SEPARATOR" (some ";") s) then do
        let isVar ← isVariableDeclarationM fuel
        if isVar then do
          let init ← parseVariableDeclaration fuel
          pure (for_node.addChild (some init))
        else do
          let init ← parseExpression fuel
          let _ ← expectTok "SEPARATOR" (some ";")
          pure (for_node.addChild init)
      else do
        advanceM
        pure (for_node.addChild (some (Node.astNode .IDENTIFIER pos [] "")))
    let s1 ← getS
    let for_node ←
      if !(matchTok "SEPARATOR" (some ";") s1) then do
        let condition ← parseExpression fuel
        pure (for_node.addChild condition)
      else pure for_node
    let _ ← expectTok "SEPARATOR" (some ";")
    let s2 ← getS
    let for_node ←
      if !(matchTok "SEPARATOR" (some ")") s2) then do
        let update ← parseExpression fuel
        pure (for_node.addChild update)
      else pure for_node
    let _ ← expectTok "SEPARATOR" (some ")")
    let body ← parseStatement fuel
    pure (for_node.addChild body)

/-- `_parse_expression_statement`. -/
def parseExpressionStatement : Nat → PM (Option Node)
  | 0 => throwE .outOfFuel
  | fuel + 1 => do
    let pos ← currentPosM
    let expr ← parseExpression fuel
    let s ← getS
    if s.current_token.isSome && matchTok "SEPARATOR" (some ";") s then
      advanceM
    match expr with
    | some e => pure (some (Node.astNode .EXPRESSION_STATEMENT pos [e] ""))
    | none => pure none

/-- `_parse_return_statement`. -/
def parseReturnStatement : Nat → PM Node
  | 0 => throwE .outOfFuel
  | fuel + 1 => do
    let pos ← currentPosM
    let _ ← expectTok "KEYWORD" (some "return")
    let return_node := Node.astNode .RETURN_STATEMENT pos [] ""
    let s ← getS
    let return_node ←
      if !(matchTok "SEPARATOR" (some ";") s) then do
        let expr ← parseExpression fuel
        pure (return_node.addChild expr)
      else pure return_node
    let _ ← expectTok "SEPARATOR" (some ";")
    pure return_node

/-- `_parse_throw_statement` (tagged `EXPRESSION_STATEMENT` in the code). -/
def parseThrowStatement : Nat → PM Node
  | 0 => throwE .outOfFuel
  | fuel + 1 => do
    let pos ← currentPosM
    let _ ← expectTok "KEYWORD" (some "throw")
    let throw_expr ← parseExpression fuel
    let _ ← expectTok "SEPARATOR" (some ";")
    pure ((Node.astNode .EXPRESSION_STATEMENT pos [] "").addChild throw_expr)

/-- `_parse_expression`. -/
def parseExpression : Nat → PM (Option Node)
  | 0 => throwE .outOfFuel
  | fuel + 1 => parseAssignmentExpression fuel

/-- `_parse_assignment_expression` (note the built node drops the scanned
operator: the `Assignment` dataclass keeps its default `"="`). -/
def parseAssignmentExpression : Nat → PM (Option Node)
  | 0 => throwE .outOfFuel
  | fuel + 1 => do
    let pos ← currentPosM
    let left ← parseConditionalExpression fuel
    let s ← getS
    match s.current_token with
    | some t =>
      if t.type = "OPERATOR" && isAssignmentOperator s then do
        advanceM
        let right ← parseAssignmentExpression fuel
        match right with
        | some r =>
          pure (some (Node.assignment .ASSIGNMENT pos [] "" "=" left (some r)))
        | none => pure left
      else pure left
    | none => pure left

/-- `_parse_conditional_expression` (the ternary is a generic
`BINARY_OPERATION` node with three children). -/
def parseConditionalExpression : Nat → PM (Option Node)
  | 0 => throwE .outOfFuel
  | fuel + 1 => do
    let pos ← currentPosM
    let condition ← parseLogicalOrExpression fuel
    let s ← getS
    if matchTok "OPERATOR" (some "?") s then do
      advanceM
      let then_expr ← parseExpression fuel
      let _ ← expectTok "OPERATOR" (some ":")
      let else_expr ← parseConditionalExpression fuel
      let ternary := (((Node.astNode .BINARY_OPERATION pos [] "").addChild condition).addChild
          then_expr).addChild else_expr
      pure (some ternary)
    else pure condition

/-- `_parse_logical_or_expression`. -/
def parseLogicalOrExpression : Nat → PM (Option Node)
  | 0 => throwE .outOfFuel
  | fuel + 1 => do
    let pos ← currentPosM
    let left ← parseLogicalAndExpression fuel
    parseLogicalOrLoop fuel pos left

/-- Loop of `_parse_logical_or_expression`. -/
def parseLogicalOrLoop : Nat → Position → Option Node → PM (Option Node)
  | 0, _, _ => throwE .outOfFuel
  | fuel + 1, pos, left => do
    let s ← getS
    match s.current_token with
    | some t =>
      if t.type = "OPERATOR" && t.lexeme = "||" then do
        advanceM
        let right ← parseLogicalAndExpression fuel
        let left' :=
          match right with
          | some r => some (Node.binaryOperation .BINARY_OPERATION pos [] "" t.lexeme left (some r))
          | none => left
        parseLogicalOrLoop fuel pos left'
      else pure left
    | none => pure left

/-- `_parse_logical_and_expression`. -/
def parseLogicalAndExpression : Nat → PM (Option Node)
  | 0 => throwE .outOfFuel
  | fuel + 1 => do
    let pos ← currentPosM
    let left ← parseEqualityExpression fuel
    parseLogicalAndLoop fuel pos left

/-- Loop of `_parse_logical_and_expression`. -/
def parseLogicalAndLoop : Nat → Position → Option Node → PM (Option Node)
  | 0, _, _ => throwE .outOfFuel
  | fuel + 1, pos, left => do
    let s ← getS
    match s.current_token with
    | some t =>
      if t.type = "OPERATOR" && t.lexeme = "&&" then do
        advanceM
        let right ← parseEqualityExpression fuel
        let left' :=
          match right with
          | some r => some (Node.binaryOperation .BINARY_OPERATION pos [] "" t.lexeme left (some r))
          | none => left
        parseLogicalAndLoop fuel pos left'
      else pure left
    | none => pure left

/-- `_parse_equality_expression`. -/
def parseEqualityExpression : Nat → PM (Option Node)
  | 0 => throwE .outOfFuel
  | fuel + 1 => do
    let pos ← currentPosM
    let left ← parseRelationalExpression fuel
    parseEqualityLoop fuel pos left

/-- Loop of `_parse_equality_expression`. -/
def parseEqualityLoop : Nat → Position → Option Node → PM (Option Node)
  | 0, _, _ => throwE .outOfFuel
  | fuel + 1, pos, left => do
    let s ← getS
    match s.current_token with
    | some t =>
      if t.type = "OPERATOR" && (t.lexeme = "==" || t.lexeme = "!=") then do
        advanceM
        let right ← parseRelationalExpression fuel
        let left' :=
          match right with
          | some r => some (Node.binaryOperation .BINARY_OPERATION pos [] "" t.lexeme left (some r))
          | none => left
        parseEqualityLoop fuel pos left'
      else pure left
    | none => pure left

/-- `_parse_relational_expression`, with the trailing `instanceof`
special case (a generic `BINARY_OPERATION` node). -/
def parseRelationalExpression : Nat → PM (Option Node)
  | 0 => throwE .outOfFuel
  | fuel + 1 => do
    let pos ← currentPosM
    let left ← parseAdditiveExpression fuel
    let left ← parseRelationalLoop fuel pos left
    let s ← getS
    if matchTok "KEYWORD" (some "instanceof") s then do
      advanceM
      let type_check ← parseType fuel
      let node := ((Node.astNode .BINARY_OPERATION pos [] "").addChild left).addChild
          (some type_check)
      pure (some node)
    else pure left

/-- Loop of `_parse_relational_expression`. -/
def parseRelationalLoop : Nat → Position → Option Node → PM (Option Node)
  | 0, _, _ => throwE .outOfFuel
  | fuel + 1, pos, left => do
    let s ← getS
    match s.current_token with
    | some t =>
      if t.type = "OPERATOR" &&
          (t.lexeme = "<" || t.lexeme = ">" || t.lexeme = "<=" || t.lexeme = ">=") then do
        advanceM
        let right ← parseAdditiveExpression fuel
        let left' :=
          match right with
          | some r => some (Node.binaryOperation .BINARY_OPERATION pos [] "" t.lexeme left (some r))
          | none => left
        parseRelationalLoop fuel pos left'
      else pure left
    | none => pure left

/-- `_parse_additive_expression`. -/
def parseAdditiveExpression : Nat → PM (Option Node)
  | 0 => throwE .outOfFuel
  | fuel + 1 => do
    let pos ← currentPosM
    let left ← parseMultiplicativeExpression fuel
    parseAdditiveLoop fuel pos left

/-- Loop of `_parse_additive_expression`; unlike the other levels it
breaks out when the right operand comes back empty. -/
def parseAdditiveLoop : Nat → Position → Option Node → PM (Option Node)
  | 0, _, _ => throwE .outOfFuel
  | fuel + 1, pos, left => do
    let s ← getS
    match s.current_token with
    | some t =>
      if t.type = "OPERATOR" && (t.lexeme = "+" || t.lexeme = "-") then do
        advanceM
        let right ← parseMultiplicativeExpression fuel
        match right with
        | some r =>
          parseAdditiveLoop fuel pos
            (some (Node.binaryOperation .BINARY_OPERATION pos [] "" t.lexeme left (some r)))
        | none => pure left
      else pure left
    | none => pure left

/-- `_parse_multiplicative_expression`. -/
def parseMultiplicativeExpression : Nat → PM (Option Node)
  | 0 => throwE .outOfFuel
  | fuel + 1 => do
    let pos ← currentPosM
    let left ← parseUnaryExpression fuel
    parseMultiplicativeLoop fuel pos left

/-- Loop of `_parse_multiplicative_expression`. -/
def parseMultiplicativeLoop : Nat → Position → Option Node → PM (Option Node)
  | 0, _, _ => throwE .outOfFuel
  | fuel + 1, pos, left => do
    let s ← getS
    match s.current_token with
    | some t =>
      if t.type = "OPERATOR" && (t.lexeme = "*" || t.lexeme = "/" || t.lexeme = "%") then do
        advanceM
        let right ← parseUnaryExpression fuel
        let left' :=
          match right with
          | some r => some (Node.binaryOperation .BINARY_OPERATION pos [] "" t.lexeme left (some r))
          | none => left
        parseMultiplicativeLoop fuel pos left'
      else pure left
    | none => pure left

/-- `_parse_unary_expression`: the cast branch commits whenever the
parenthesis scan of `_lookahead_for_cast` answers `True`. -/
def parseUnaryExpression : Nat → PM (Option Node)
  | 0 => throwE .outOfFuel
  | fuel + 1 => do
    let pos ← currentPosM
    let s ← getS
    if matchTok "SEPARATOR" (some "(") s && lookaheadForCast s then do
      let c ← parseCastExpression fuel
      pure (some c)
    else
      match s.current_token with
      | some t =>
        if t.type = "OPERATOR" &&
            (t.lexeme = "!" || t.lexeme = "-" || t.lexeme = "++" || t.lexeme = "--") then do
          advanceM
          let operand ← parseUnaryExpression fuel
          match operand with
          | some op => pure (some (Node.astNode .UNARY_OPERATION pos [op] ""))
          | none => parsePostfixExpression fuel
        else parsePostfixExpression fuel
      | none => parsePostfixExpression fuel

/-- `_parse_postfix_expression`. -/
def parsePostfixExpression : Nat → PM (Option Node)
  | 0 => throwE .outOfFuel
  | fuel + 1 => do
    let pos ← currentPosM
    let expr ← parsePrimaryExpression fuel
    let s ← getS
    match s.current_token with
    | some t =>
      if t.type = "OPERATOR" && (t.lexeme = "++" || t.lexeme = "--") then do
        advanceM
        pure (some ((Node.astNode .UNARY_OPERATION pos [] "").addChild expr))
      else pure expr
    | none => pure expr

/-- `_parse_cast_expression` (a generic `BINARY_OPERATION` node, not a
`CastExpression`). -/
def parseCastExpression : Nat → PM Node
  | 0 => throwE .outOfFuel
  | fuel + 1 => do
    let pos ← currentPosM
    let _ ← expectTok "SEPARATOR" (some "(")
    let cast_type ← parseType fuel
    let _ ← expectTok "SEPARATOR" (some ")")
    let expression ← parseUnaryExpression fuel
    pure (((Node.astNode .BINARY_OPERATION pos [] "").addChild (some cast_type)).addChild
      expression)

/-- `_parse_primary_expression`.  The `elif` chain evaluates
`_lookahead_for_lambda` — and thereby advances the cursor — before the
literal, identifier and parenthesis branches run. -/
def parsePrimaryExpression : Nat → PM (Option Node)
  | 0 => throwE .outOfFuel
  | fuel + 1 => do
    let pos ← currentPosM
    let s ← getS
    match s.current_token with
    | none => pure none
    | some _ =>
      if matchTok "SEPARATOR" (some "\x7b") s then do
        let a ← parseArrayInitializer fuel
        pure (some a)
      else if matchTok "KEYWORD" (some "this") s then do
        advanceM
        let s1 ← getS
        if matchTok "SEPARATOR" (some ".") s1 then do
          let f ← parseFieldAccess fuel (Node.identifier .IDENTIFIER pos [] "this") pos
          pure (some f)
        else pure (some (Node.identifier .IDENTIFIER pos [] "this"))
      else if matchTok "KEYWORD" (some "super") s then do
        advanceM
        let s1 ← getS
        if matchTok "SEPARATOR" (some ".") s1 then do
          let f ← parseFieldAccess fuel (Node.identifier .IDENTIFIER pos [] "super") pos
          pure (some f)
        else pure (some (Node.identifier .IDENTIFIER pos [] "super"))
      else if matchTok "KEYWORD" (some "new") s then do
        let o ← parseObjectCreation fuel
        pure (some o)
      else do
        let isLambda ←
          if matchTok "SEPARATOR" (some "(") s then lookaheadForLambda
          else pure false
        if isLambda then do
          let l ← parseLambdaExpression fuel
          pure (some l)
        else do
          let s2 ← getS
          match s2.current_token with
          | none => pure none
          | some token =>
            if token.type = "INT_LITERAL" || token.type = "STRING_LITERAL" ||
                token.type = "BOOLEAN_LITERAL" || token.type = "FLOAT_LITERAL" ||
                token.type = "NULL_LITERAL" then do
              advanceM
              pure (some (Node.literal .LITERAL pos [] "" token.lexeme
                (literalTypeOf token.type)))
            else if token.type = "IDENTIFIER" then do
              let ident := Node.identifier .IDENTIFIER pos [] token.lexeme
              advanceM
              let s3 ← getS
              match s3.current_token with
              | some nxt =>
                if nxt.lexeme = "(" then do
                  let m ← parseMethodCall fuel token.lexeme pos
                  pure (some m)
                else if nxt.lexeme = "." then do
                  let f ← parseFieldAccess fuel ident pos
                  pure (some f)
                else if nxt.lexeme = "[" then do
                  let a ← parseArrayAccess fuel ident pos
                  pure (some a)
                else pure (some ident)
              | none => pure (some ident)
            else if token.type = "SEPARATOR" && token.lexeme = "(" then do
              advanceM
              let expr ← parseExpression fuel
              let _ ← expectTok "SEPARATOR" (some ")")
              pure expr
            else do
              advanceM
              pure none

/-- `_parse_array_initializer` (a generic `BLOCK` node). -/
def parseArrayInitializer : Nat → PM Node
  | 0 => throwE .outOfFuel
  | fuel + 1 => do
    let pos ← currentPosM
    let _ ← expectTok "SEPARATOR" (some "\x7b")
    let array_node := Node.astNode .BLOCK pos [] ""
    let s ← getS
    let array_node ←
      if !(matchTok "SEPARATOR" (some "\x7d") s) then
        parseArrayInitLoop fuel array_node
      else pure array_node
    let _ ← expectTok "SEPARATOR" (some "\x7d")
    pure array_node

/-- The element loop of `_parse_array_initializer`. -/
def parseArrayInitLoop : Nat → Node → PM Node
  | 0, _ => throwE .outOfFuel
  | fuel + 1, node => do
    let element ← parseExpression fuel
    let node := node.addChild element
    let s ← getS
    if matchTok "SEPARATOR" (some ",") s then do
      advanceM
      parseArrayInitLoop fuel node
    else pure node

/-- `_parse_array_access` (tagged `FIELD_ACCESS` in the code). -/
def parseArrayAccess : Nat → Node → Position → PM Node
  | 0, _, _ => throwE .outOfFuel
  | fuel + 1, array, pos => do
    let _ ← expectTok "SEPARATOR" (some "[")
    let index_expr ← parseExpression fuel
    let _ ← expectTok "SEPARATOR" (some "]")
    pure (((Node.astNode .FIELD_ACCESS pos [] "").addChild (some array)).addChild index_expr)

/-- `_parse_method_call`. -/
def parseMethodCall : Nat → String → Position → PM Node
  | 0, _, _ => throwE .outOfFuel
  | fuel + 1, method_name, pos => do
    let method_call := Node.methodCall .METHOD_CALL pos [] "" method_name [] none
    let _ ← expectTok "SEPARATOR" (some "(")
    let method_call ← parseCallArgsLoop fuel method_call
    let _ ← expectTok "SEPARATOR" (some ")")
    pure method_call

/-- The argument loop shared by `_parse_method_call` and
`_parse_method_call_chain`. -/
def parseCallArgsLoop : Nat → Node → PM Node
  | 0, _ => throwE .outOfFuel
  | fuel + 1, mc => do
    let s ← getS
    if matchTok "SEPARATOR" (some ")") s then pure mc
    else do
      let arg ← parseExpression fuel
      let mc :=
        match arg with
        | some a => mc.appendArgument a
        | none => mc
      let s1 ← getS
      if matchTok "SEPARATOR" (some ",") s1 then do
        advanceM
        parseCallArgsLoop fuel mc
      else pure mc

/-- `_parse_field_access` (missing identifier → two-argument constructor
call → `TypeError`). -/
def parseFieldAccess : Nat → Node → Position → PM Node
  | 0, _, _ => throwE .outOfFuel
  | fuel + 1, left, pos => do
    let _ ← expectTok "OPERATOR" (some ".")
    let s ← getS
    match s.current_token with
    | some t =>
      if t.type ≠ "IDENTIFIER" then throwE .typeError
      else do
        advanceM
        let pos' ← currentPosM
        let field_access := ((Node.astNode .FIELD_ACCESS pos [] "").addChild (some left)).addChild
            (some (Node.identifier .IDENTIFIER pos' [] t.lexeme))
        let s1 ← getS
        match s1.current_token with
        | some nxt =>
          if nxt.lexeme = "(" then
            parseMethodCallChain fuel field_access t.lexeme pos
          else if nxt.lexeme = "." then
            parseFieldAccess fuel field_access pos
          else if nxt.lexeme = "[" then do
            let array_access ← parseArrayAccess fuel field_access pos
            let s2 ← getS
            match s2.current_token with
            | some nxt2 =>
              if nxt2.lexeme = "." then parseFieldAccess fuel array_access pos
              else pure array_access
            | none => pure array_access
          else pure field_access
        | none => pure field_access
    | none => throwE .typeError

/-- `_parse_method_call_chain`. -/
def parseMethodCallChain : Nat → Node → String → Position → PM Node
  | 0, _, _, _ => throwE .outOfFuel
  | fuel + 1, target, method_name, pos => do
    let method_call := (Node.methodCall .METHOD_CALL pos [] "" method_name [] none).addChild
        (some target)
    let _ ← expectTok "SEPARATOR" (some "(")
    let method_call ← parseCallArgsLoop fuel method_call
    let _ ← expectTok "SEPARATOR" (some ")")
    let s ← getS
    match s.current_token with
    | some nxt =>
      if nxt.lexeme = "." then parseFieldAccess fuel method_call pos
      else if nxt.lexeme = "[" then do
        let array_access ← parseArrayAccess fuel method_call pos
        let s1 ← getS
        match s1.current_token with
        | some nxt2 =>
          if nxt2.lexeme = "." then parseFieldAccess fuel array_access pos
          else pure array_access
        | none => pure array_access
      else pure method_call
    | none => pure method_call

/-- `_parse_lambda_expression` (tagged `METHOD_DECLARATION`). -/
def parseLambdaExpression : Nat → PM Node
  | 0 => throwE .outOfFuel
  | fuel + 1 => do
    let pos ← currentPosM
    let parameters ← parseLambdaParameters fuel
    let _ ← expectTok "OPERATOR" (some "-")
    let _ ← expectTok "OPERATOR" (some ">")
    let body ← parseLambdaBody fuel
    pure (((Node.astNode .METHOD_DECLARATION pos [] "").addChild (some parameters)).addChild
      body)

/-- `_parse_lambda_parameters`. -/
def parseLambdaParameters : Nat → PM Node
  | 0 => throwE .outOfFuel
  | fuel + 1 => do
    let pos ← currentPosM
    let s ← getS
    match s.current_token with
    | some t =>
      if matchTok "IDENTIFIER" none s then do
        advanceM
        pure ((Node.astNode .PARAMETER pos [] "").addChild
          (some (Node.identifier .IDENTIFIER pos [] t.lexeme)))
      else do
        let _ ← expectTok "SEPARATOR" (some "(")
        let params_node := Node.astNode .BLOCK pos [] ""
        let s1 ← getS
        let params_node ←
          if !(matchTok "SEPARATOR" (some ")") s1) then
            parseLambdaParamsLoop fuel params_node
          else pure params_node
        let _ ← expectTok "SEPARATOR" (some ")")
        pure params_node
    | none => do
      let _ ← expectTok "SEPARATOR" (some "(")
      let params_node := Node.astNode .BLOCK pos [] ""
      let s1 ← getS
      let params_node ←
        if !(matchTok "SEPARATOR" (some ")") s1) then
          parseLambdaParamsLoop fuel params_node
        else pure params_node
      let _ ← expectTok "SEPARATOR" (some ")")
      pure params_node

/-- The parameter loop of `_parse_lambda_parameters`. -/
def parseLambdaParamsLoop : Nat → Node → PM Node
  | 0, _ => throwE .outOfFuel
  | fuel + 1, node => do
    let s ← getS
    let node ←
      match s.current_token with
      | some t =>
        if matchTok "IDENTIFIER" none s then do
          advanceM
          let pos ← currentPosM
          pure (node.addChild (some (Node.parameter .PARAMETER pos [] t.lexeme none)))
        else pure node
      | none => pure node
    let s1 ← getS
    if matchTok "SEPARATOR" (some ",") s1 then do
      advanceM
      parseLambdaParamsLoop fuel node
    else pure node

/-- `_parse_lambda_body`. -/
def parseLambdaBody : Nat → PM (Option Node)
  | 0 => throwE .outOfFuel
  | fuel + 1 => do
    let s ← getS
    if matchTok "SEPARATOR" (some "\x7b") s then do
      let b ← parseBlock fuel
      pure (some b)
    else parseExpression fuel

/-- `_parse_object_creation` (tagged `METHOD_CALL`). -/
def parseObjectCreation : Nat → PM Node
  | 0 => throwE .outOfFuel
  | fuel + 1 => do
    let pos ← currentPosM
    let _ ← expectTok "KEYWORD" (some "new")
    let object_type ← parseType fuel
    let s ← getS
    let args ←
      if matchTok "SEPARATOR" (some "(") s then do
        advanceM
        let args ← parseNewArgsLoop fuel []
        let _ ← expectTok "SEPARATOR" (some ")")
        pure args
      else pure ([] : List Node)
    let s1 ← getS
    let anonymous_class ←
      if matchTok "SEPARATOR" (some "\x7b") s1 then do
        let b ← parseBlock fuel
        pure (some b)
      else pure none
    let new_node := (Node.astNode .METHOD_CALL pos [] "").addChild (some object_type)
    let new_node := args.foldl (fun n a => n.addChild (some a)) new_node
    pure (new_node.addChild anonymous_class)

/-- The argument loop of `_parse_object_creation`. -/
def parseNewArgsLoop : Nat → List Node → PM (List Node)
  | 0, _ => throwE .outOfFuel
  | fuel + 1, acc => do
    let s ← getS
    if matchTok "SEPARATOR" (some ")") s then pure acc
    else do
      let arg ← parseExpression fuel
      let acc :=
        match arg with
        | some a => acc ++ [a]
        | none => acc
      let s1 ← getS
      if matchTok "SEPARATOR" (some ",") s1 then do
        advanceM
        parseNewArgsLoop fuel acc
      else pure acc

end

/-- `Parser(tokens).parse()` with the given fuel. -/
def runParser (fuel : Nat) (tokens : List Token) : PResult Node :=
  parseProgram fuel (initParser tokens)

/-- Whether a run came back with a value (as opposed to an exception or
exhausted fuel). -/
def PResult.isOkB {α : Type} : PResult α → Bool
  | .ok _ _ => true
  | .err _ _ => false

/-- The parser state a run ended in, whether it returned or raised. -/
def PResult.stateOf {α : Type} : PResult α → PState
  | .ok _ s => s
  | .err _ s => s

/-- For a program-parse run: the field names of each parsed class, in
source order (empty when the run raised). -/
def classFieldNames (r : PResult Node) : List (List String) :=
  match r with
  | .ok p _ => p.classesOf.map (fun c => (Node.fieldsOf c).map Node.nameOf)
  | .err _ _ => []

/-- Shorthand for a one-line token. -/
def tk (ty lx : String) (c : Int) : Token := ⟨ty, lx, 1, c⟩

/-! ## Cursor invariants (claim C10) -/

/-- The cursor invariant: the position never exceeds the token count, and
the cached `current_token` is `tokens[pos]` below the end and `None` at or
past it (`List.get?` says exactly that). -/
def CursorInv (s : PState) : Prop :=
  s.pos ≤ s.tokens.length ∧ s.current_token = s.tokens.get? s.pos

/-- Every saved recovery point is a position within bounds. -/
def RecoveryInv (s : PState) : Prop :=
  ∀ p ∈ s.error_recovery_points, p ≤ s.tokens.length

theorem advanceState_tokens (s : PState) : (advanceState s).tokens = s.tokens := by
  unfold advanceState
  split <;> rfl

theorem advanceState_rp (s : PState) :
    (advanceState s).error_recovery_points = s.error_recovery_points := by
  unfold advanceState
  split <;> rfl

theorem cursorInv_advance {s : PState} (h : CursorInv s) : CursorInv (advanceState s) := by
  obtain ⟨h1, _⟩ := h
  unfold CursorInv advanceState
  by_cases hc : s.tokens.length - 1 ≤ s.pos
  · simp only [if_pos hc]
    exact ⟨le_rfl, (List.get?_eq_none.mpr le_rfl).symm⟩
  · simp only [if_neg hc]
    exact ⟨by omega, by simp⟩

theorem recoveryInv_advance {s : PState} (h : RecoveryInv s) :
    RecoveryInv (advanceState s) := by
  intro p hp
  rw [advanceState_tokens]
  exact h p (by rwa [advanceState_rp] at hp)

theorem cursorInv_reset {s : PState} {p : Nat} (hp : p ≤ s.tokens.length) :
    CursorInv (resetState p s) :=
  ⟨hp, rfl⟩

theorem recoverSkip_inv :
    ∀ (fuel : Nat) (s : PState), CursorInv s → RecoveryInv s →
      CursorInv ((recoverSkip fuel s).stateOf) ∧
      RecoveryInv ((recoverSkip fuel s).stateOf) := by
  intro fuel
  induction fuel with
  | zero => intro s h hr; exact ⟨h, hr⟩
  | succ n ih =>
    intro s h hr
    unfold recoverSkip
    cases hct : s.current_token with
    | none => exact ⟨h, hr⟩
    | some t =>
      by_cases h1 : t.type = "EOF"
      · simp only [if_pos h1]
        exact ⟨h, hr⟩
      · simp only [if_neg h1]
        by_cases h2 : (matchTok "KEYWORD" (some "class") s ||
            matchTok "KEYWORD" (some "import") s) = true
        · simp only [if_pos h2]
          exact ⟨h, hr⟩
        · simp only [if_neg h2]
          by_cases h3 : (matchTok "SEPARATOR" (some "\x7d") s ||
              matchTok "SEPARATOR" (some ";") s) = true
          · simp only [if_pos h3]
            exact ⟨cursorInv_advance h, recoveryInv_advance hr⟩
          · simp only [if_neg h3]
            exact ih (advanceState s) (cursorInv_advance h) (recoveryInv_advance hr)

theorem recoverFromError_inv {s : PState} (h : CursorInv s) (hr : RecoveryInv s)
    (fuel : Nat) :
    CursorInv ((recoverFromError fuel s).stateOf) ∧
    RecoveryInv ((recoverFromError fuel s).stateOf) := by
  unfold recoverFromError
  cases hrp : s.error_recovery_points with
  | nil => exact ⟨h, hr⟩
  | cons p rest =>
    have hple : p ≤ s.tokens.length :=
      hr p (by rw [hrp]; exact List.mem_cons_self p rest)
    have hinv : CursorInv (resetState p { s with error_recovery_points := rest }) :=
      cursorInv_reset hple
    have hrinv : RecoveryInv (resetState p { s with error_recovery_points := rest }) := by
      intro q hq
      exact hr q (by rw [hrp]; exact List.mem_cons_of_mem p hq)
    have := recoverSkip_inv fuel _ hinv hrinv
    cases hres : recoverSkip fuel (resetState p { s with error_recovery_points := rest }) with
    | ok u s' =>
      simpa [PResult.stateOf, hres] using this
    | err e s' =>
      simpa [PResult.stateOf, hres] using this

theorem expectTok_inv {s : PState} (h : CursorInv s) (k : String) (v : Option String) :
    CursorInv ((expectTok k v s).stateOf) := by
  unfold expectTok
  cases hct : s.current_token with
  | none => exact h
  | some t =>
    by_cases h1 : t.type ≠ k
    · simp only [if_pos h1]
      exact h
    · simp only [if_neg h1]
      cases v with
      | none => exact cursorInv_advance h
      | some w =>
        by_cases h2 : t.lexeme ≠ w
        · simp only [if_pos h2]
          exact h
        · simp only [if_neg h2]
          exact cursorInv_advance h

/-! ## Concrete claim inputs and their expected parses -/

/-- Tokens of the statement `try { }` (a `try` with neither `catch` nor
`finally`). -/
def c1toks : List Token :=
  [tk "KEYWORD" "try" 1, tk "SEPARATOR" "\x7b" 2, tk "SEPARATOR" "\x7d" 3]

/-- Tokens of `for (String s : list) { }`, exactly as the repository's own
test `test_parser_statements.py::test_for_each` builds them. -/
def c2toks : List Token :=
  [tk "KEYWORD" "for" 1, tk "SEPARATOR" "(" 2, tk "IDENTIFIER" "String" 3,
   tk "IDENTIFIER" "s" 4, tk "OPERATOR" ":" 5, tk "IDENTIFIER" "list" 6,
   tk "SEPARATOR" ")" 7, tk "SEPARATOR" "\x7b" 8, tk "SEPARATOR" "\x7d" 9]

/-- Tokens of `class A { B ( ) { } }`: a member whose leading identifier
`B` differs from the class name `A` and is followed by `(`. -/
def c3toks : List Token :=
  [tk "KEYWORD" "class" 1, tk "IDENTIFIER" "A" 2, tk "SEPARATOR" "\x7b" 3,
   tk "IDENTIFIER" "B" 4, tk "SEPARATOR" "(" 5, tk "SEPARATOR" ")" 6,
   tk "SEPARATOR" "\x7b" 7, tk "SEPARATOR" "\x7d" 8, tk "SEPARATOR" "\x7d" 9]

/-- The node `class A { B ( ) { } }` parses to: member `B` goes through
the constructor production (it is a `MethodDeclaration` with no return
type) and lands in `methods`; `constructors` stays empty. -/
def c3program : Node :=
  Node.program .PROGRAM ⟨1, 1⟩ [] "" none []
    [Node.classDeclaration .CLASS_DECLARATION ⟨1, 1⟩ [] "A" [] none [] []
      [Node.methodDeclaration .METHOD_DECLARATION ⟨1, 4⟩ [] "B" none []
        (some (Node.block .BLOCK ⟨1, 7⟩ [] "" [])) [] []] []]

/-- Tokens of the expression `(String) obj`. -/
def c4toks : List Token :=
  [tk "SEPARATOR" "(" 1, tk "IDENTIFIER" "String" 2, tk "SEPARATOR" ")" 3,
   tk "IDENTIFIER" "obj" 4]

/-- What `(String) obj` parses to: a generic node tagged
`BINARY_OPERATION` (not `CAST_EXPRESSION`) whose children are the type
`String` and the identifier `obj`. -/
def c4castNode : Node :=
  Node.astNode .BINARY_OPERATION ⟨1, 1⟩
    [Node.typeNode .TYPE ⟨1, 2⟩ [] "String" false [],
     Node.identifier .IDENTIFIER ⟨1, 4⟩ [] "obj"] ""

/-- Tokens of the expression `(a + b)` with nothing after it. -/
def c4btoks : List Token :=
  [tk "SEPARATOR" "(" 1, tk "IDENTIFIER" "a" 2, tk "OPERATOR" "+" 3,
   tk "IDENTIFIER" "b" 4, tk "SEPARATOR" ")" 5]

/-- Tokens of `class A { int x ; int ; int y ; }`: two well-formed fields
around the malformed member `int ;` (a type with no declarator). -/
def c6toks : List Token :=
  [tk "KEYWORD" "class" 1, tk "IDENTIFIER" "A" 2, tk "SEPARATOR" "\x7b" 3,
   tk "KEYWORD" "int" 4, tk "IDENTIFIER" "x" 5, tk "SEPARATOR" ";" 6,
   tk "KEYWORD" "int" 7, tk "SEPARATOR" ";" 8,
   tk "KEYWORD" "int" 9, tk "IDENTIFIER" "y" 10, tk "SEPARATOR" ";" 11,
   tk "SEPARATOR" "\x7d" 12]

/-- The parse of `c6toks`: exactly the two well-formed fields, in order. -/
def c6program : Node :=
  Node.program .PROGRAM ⟨1, 1⟩ [] "" none []
    [Node.classDeclaration .CLASS_DECLARATION ⟨1, 1⟩ [] "A" [] none []
      [Node.fieldDeclaration .FIELD_DECLARATION ⟨1, 6⟩ [] "x"
        (some (Node.typeNode .TYPE ⟨1, 4⟩ [] "int" false [])) none [],
       Node.fieldDeclaration .FIELD_DECLARATION ⟨1, 11⟩ [] "y"
        (some (Node.typeNode .TYPE ⟨1, 9⟩ [] "int" false [])) none []]
      [] []]

/-- Tokens of `class A { int x ; int a int b ; int y ; }`: two well-formed
fields around the malformed member `int a int b ;` (missing `;` after
`a`). -/
def c6cextoks : List Token :=
  [tk "KEYWORD" "class" 1, tk "IDENTIFIER" "A" 2, tk "SEPARATOR" "\x7b" 3,
   tk "KEYWORD" "int" 4, tk "IDENTIFIER" "x" 5, tk "SEPARATOR" ";" 6,
   tk "KEYWORD" "int" 7, tk "IDENTIFIER" "a" 8, tk "KEYWORD" "int" 9,
   tk "IDENTIFIER" "b" 10, tk "SEPARATOR" ";" 11,
   tk "KEYWORD" "int" 12, tk "IDENTIFIER" "y" 13, tk "SEPARATOR" ";" 14,
   tk "SEPARATOR" "\x7d" 15]

/-- Tokens of `a + b * c`. -/
def c7toks : List Token :=
  [tk "IDENTIFIER" "a" 1, tk "OPERATOR" "+" 2, tk "IDENTIFIER" "b" 3,
   tk "OPERATOR" "*" 4, tk "IDENTIFIER" "c" 5]

/-- The tree of `a + b * c`: `+` at the root, `a` on the left,
`BinaryOperation(*, b, c)` on the right. -/
def c7tree : Node :=
  Node.binaryOperation .BINARY_OPERATION ⟨1, 1⟩ [] "" "+"
    (some (Node.identifier .IDENTIFIER ⟨1, 1⟩ [] "a"))
    (some (Node.binaryOperation .BINARY_OPERATION ⟨1, 3⟩ [] "" "*"
      (some (Node.identifier .IDENTIFIER ⟨1, 3⟩ [] "b"))
      (some (Node.identifier .IDENTIFIER ⟨1, 5⟩ [] "c"))))

/-- Tokens of `a - b - c`. -/
def c7btoks : List Token :=
  [tk "IDENTIFIER" "a" 1, tk "OPERATOR" "-" 2, tk "IDENTIFIER" "b" 3,
   tk "OPERATOR" "-" 4, tk "IDENTIFIER" "c" 5]

/-- The tree of `a - b - c`: left-leaning, `(a - b) - c`. -/
def c7btree : Node :=
  Node.binaryOperation .BINARY_OPERATION ⟨1, 1⟩ [] "" "-"
    (some (Node.binaryOperation .BINARY_OPERATION ⟨1, 1⟩ [] "" "-"
      (some (Node.identifier .IDENTIFIER ⟨1, 1⟩ [] "a"))
      (some (Node.identifier .IDENTIFIER ⟨1, 3⟩ [] "b"))))
    (some (Node.identifier .IDENTIFIER ⟨1, 5⟩ [] "c"))

/-- Tokens `class {` — the exact input of the repository's own unit test
`test_parser_unit.py::test_parse_invalid_tokens`, which expects a raised
`ParseError`/`UnexpectedTokenError`. -/
def c9toks : List Token := [tk "KEYWORD" "class" 1, tk "SEPARATOR" "\x7b" 2]

/-- The `Program` node `parse` builds for `c9toks` before entering its
loop. -/
def c9prog : Node := Node.program .PROGRAM ⟨1, 1⟩ [] "" none [] []

/-- The cursor state at the top of the `parse` loop on `c9toks`. -/
def c9state : PState := initParser c9toks

/-- One full iteration of the `parse` loop on `class {` with ample fuel:
the class production raises on `\x7b`, recovery resets to position 0 and
stops at the `class` keyword without consuming it, so the iteration
returns the identical program and the identical state. -/
theorem c9_iter_fix (m : Nat) :
    parseTopIteration (m + 6) c9prog c9state = .ok c9prog c9state := rfl

/-- Hence each loop unfolding on `class {` reproduces the previous one. -/
theorem c9_loop_step (m : Nat) :
    parseProgramLoop (m + 7) c9prog c9state
      = parseProgramLoop (m + 6) c9prog c9state := rfl

/-- The loop value on `class {` is the same for every fuel of at least 6. -/
theorem c9_loop_const (n : Nat) :
    parseProgramLoop (n + 6) c9prog c9state = parseProgramLoop 6 c9prog c9state := by
  induction n with
  | zero => rfl
  | succ k ih => exact (c9_loop_step k).trans ih

/-- Concrete state used by the C10 witness. -/
def c10wState : PState :=
  { tokens := [tk "KEYWORD" "class" 1]
    pos := 0
    current_token := some (tk "KEYWORD" "class" 1)
    error_recovery_points := [0] }

/-- Concrete state used by the C8 witness: the cursor already past the
end of a one-token list. -/
def c8wState : PState :=
  { tokens := [tk "KEYWORD" "class" 1]
    pos := 5
    current_token := none
    error_recovery_points := [] }

/-! ## The claims -/

/-- C1.  The claim says a `try` whose block is followed by neither `catch`
nor `finally` fails with a StructuralError at the `try` keyword.  The code
has no such check (and errors.py defines no StructuralError): parsing the
statement `try { }` succeeds and returns a handler-less try node — a
generic `BLOCK` node at the `try` keyword's position whose only child is
the empty block — consuming all three tokens.  This contradicts the
function's own docstring grammar
`'try' block (catch_clause)+ (finally_clause)? | 'try' block
finally_clause`, which requires at least one handler. -/
theorem C1_try_without_handlers_accepted :
    parseTryStatement 50 (initParser c1toks)
      = .ok (Node.astNode .BLOCK ⟨1, 1⟩ [Node.block .BLOCK ⟨1, 2⟩ [] "" []] "")
          { tokens := c1toks, pos := 3, current_token := none,
            error_recovery_points := [] } := rfl

/-- C2.  The claim says `for (String s : list) {}` parses as a
`ForEachStatement` with `var_name = "s"`.  `_parse_for_statement` has no
for-each branch at all: it commits to the three-clause form, parses
`String s` as a variable declaration and then `_expect`s a `;`, so the `:`
raises `UnexpectedTokenError("SEPARATOR", "OPERATOR")` at the colon's
position (1:5) and no node is produced — contradicting the repository's
own test `test_for_each`. -/
theorem C2_foreach_tokens_raise :
    parseForStatement 50 (initParser c2toks)
      = .err (.unexpectedToken "SEPARATOR" "OPERATOR" 1 5)
          { tokens := c2toks, pos := 4,
            current_token := some (tk "OPERATOR" ":" 5),
            error_recovery_points := [] } := rfl

/-- C3.  The claim says a member is a constructor exactly when its leading
identifier equals the class name, and that constructors are recorded in
the `constructors` list.  `_lookahead_for_constructor` never compares the
identifier with the class name — any `IDENTIFIER (` member takes the
constructor production — and the node it builds is a `MethodDeclaration`,
which the member dispatch appends to `methods`; the `constructors` list
is never written.  On `class A { B ( ) { } }` the member `B` (name ≠
`A`) parses through the constructor production into `methods`, and
`constructors` is empty, contradicting the tests that read
`classes[0].constructors[0]`. -/
theorem C3_identifier_paren_member_misclassified :
    runParser 100 c3toks
      = .ok c3program
          { tokens := c3toks, pos := 9, current_token := none,
            error_recovery_points := [] }
    ∧ c3program.classesOf.map Node.constructorsOf = [[]]
    ∧ c3program.classesOf.map (fun c => (Node.methodsOf c).map Node.nameOf) = [["B"]] :=
  ⟨rfl, rfl, rfl⟩

/-- C4.  The claim says the parser commits to a CastExpression exactly
when a type followed by `)` parses speculatively, restoring the cursor
otherwise, and that `(String) obj` yields a CastExpression.
`_lookahead_for_cast` only scans for the matching `)` and checks the kind
of the next token, and `_parse_cast_expression` builds a generic node
tagged `BINARY_OPERATION` — `NodeType.CAST_EXPRESSION` is never used, so
the test asserting `CAST_EXPRESSION` fails.  For bare `(a + b)` the
result happens to be the `BinaryOperation(+, a, b)` — but via
`_lookahead_for_lambda`'s cursor side effect, which skips the `(` and
leaves the closing `)` unconsumed (final position 4 of 5). -/
theorem C4_cast_node_is_binary_operation :
    parseExpression 50 (initParser c4toks)
      = .ok (some c4castNode)
          { tokens := c4toks, pos := 4, current_token := none,
            error_recovery_points := [] }
    ∧ c4castNode.nodeTypeOf = NodeType.BINARY_OPERATION
    ∧ parseExpression 50 (initParser c4btoks)
      = .ok (some (Node.binaryOperation .BINARY_OPERATION ⟨1, 1⟩ [] "" "+"
            (some (Node.identifier .IDENTIFIER ⟨1, 1⟩ [] "a"))
            (some (Node.identifier .IDENTIFIER ⟨1, 4⟩ [] "b"))))
          { tokens := c4btoks, pos := 4,
            current_token := some (tk "SEPARATOR" ")" 5),
            error_recovery_points := [] } :=
  ⟨rfl, rfl, rfl⟩

/-- C5.  The claim says every failed `expect` raises a typed
UnexpectedToken error with position, in every cursor state including
end-of-stream.  With a token present that is what happens (second
conjunct), but at end-of-stream the Python code evaluates
`self.current_token.line` on `None` while building the error, so the call
dies with `AttributeError` instead (first conjunct). -/
theorem C5_expect_at_eof_attribute_error :
    expectTok "IDENTIFIER" none (initParser []) = .err .attributeError (initParser [])
    ∧ expectTok "IDENTIFIER" none (initParser [tk "KEYWORD" "class" 1])
      = .err (.unexpectedToken "IDENTIFIER" "KEYWORD" 1 1)
          (initParser [tk "KEYWORD" "class" 1]) :=
  ⟨rfl, rfl⟩

/-- C6 counterexample.  The claim quantifies over every malformed member:
for `class A { int x ; int a int b ; int y ; }` the malformed member
`int a int b ;` is skipped one token at a time, and its suffix `int b ;`
re-parses as a field, so the class ends up with the three fields
`x`, `b`, `y` — not exactly the two well-formed ones. -/
theorem C6_malformed_member_adds_field :
    (runParser 300 c6cextoks).isOkB = true
    ∧ classFieldNames (runParser 300 c6cextoks) = [["x", "b", "y"]] :=
  ⟨rfl, rfl⟩

/-- C6 amended.  For a malformed member that no token-by-token re-parse
can mistake for a declaration — here `int ;`, a type with no declarator —
the class's `fields` list contains exactly the two well-formed fields in
source order and the malformed member contributes nothing. -/
theorem C6_single_token_malformed_member_skipped :
    runParser 200 c6toks
      = .ok c6program
          { tokens := c6toks, pos := 12, current_token := none,
            error_recovery_points := [] }
    ∧ classFieldNames (runParser 200 c6toks) = [["x", "y"]] :=
  ⟨rfl, rfl⟩

/-- C7.  Parsing `a + b * c` yields `BinaryOperation(+, a,
BinaryOperation(*, b, c))`: the multiplicative level binds tighter than
the additive level.  Parsing `a - b - c` yields the left-leaning
`BinaryOperation(-, BinaryOperation(-, a, b), c)`: the additive loop is
left-associative. -/
theorem C7_precedence_left_assoc :
    parseExpression 50 (initParser c7toks)
      = .ok (some c7tree)
          { tokens := c7toks, pos := 5, current_token := none,
            error_recovery_points := [] }
    ∧ parseExpression 50 (initParser c7btoks)
      = .ok (some c7btree)
          { tokens := c7btoks, pos := 5, current_token := none,
            error_recovery_points := [] } :=
  ⟨rfl, rfl⟩

/-- C8.  Parsing the empty token sequence succeeds with an empty Program
(position defaults to 1:1, no imports, no classes); a state with no
current token fails the top-loop guard (absent token treated as EOF); and
`_advance` from any position at or past the end clamps to `len(tokens)`
with current token `None` instead of raising. -/
theorem C8_empty_input_and_clamp :
    runParser 100 ([] : List Token)
      = .ok (Node.program .PROGRAM ⟨1, 1⟩ [] "" none [] []) (initParser [])
    ∧ (∀ s : PState, s.current_token = none → topLoopGuard s = false)
    ∧ (∀ s : PState, s.tokens.length ≤ s.pos →
        advanceState s = { s with pos := s.tokens.length, current_token := none }) := by
  refine ⟨rfl, ?_, ?_⟩
  · intro s h
    simp [topLoopGuard, h]
  · intro s h
    unfold advanceState
    rw [if_pos (by omega)]

/-- Witness for C8 at a concrete past-the-end state. -/
theorem C8_empty_input_and_clamp_witness :
    topLoopGuard c8wState = false
    ∧ advanceState c8wState = { c8wState with pos := 1, current_token := none } :=
  ⟨C8_empty_input_and_clamp.2.1 c8wState rfl,
   C8_empty_input_and_clamp.2.2 c8wState (by decide)⟩

/-- C9.  The claim says `parse` terminates on every finite token sequence
because every loop iteration makes progress.  On the two tokens
`class {` — the exact input of the repository's own
`test_parse_invalid_tokens`, which expects a raised error — the class
production raises at the `\x7b`, and `_recover_from_error` resets to the
saved position and stops at the `class` keyword without consuming it:
one full iteration returns the identical program and state while the loop
guard still holds, so with any fuel the loop never returns a value —
the Python original loops forever. -/
theorem C9_parse_loops_forever :
    parseTopIteration 30 c9prog c9state = .ok c9prog c9state
    ∧ topLoopGuard c9state = true
    ∧ ∀ n : Nat, (parseProgramLoop n c9prog c9state).isOkB = false := by
  refine ⟨rfl, rfl, ?_⟩
  intro n
  rcases Nat.lt_or_ge n 6 with h | h
  · interval_cases n <;> rfl
  · obtain ⟨m, rfl⟩ : ∃ m, n = m + 6 := ⟨n - 6, by omega⟩
    rw [c9_loop_const]
    rfl

/-- C10.  From any state satisfying the cursor invariant
(`pos ≤ len(tokens)` and `current_token = tokens[pos]` below the end,
`None` at or past it): `_advance` preserves it; `_reset_to_position`
preserves it for any in-bounds target; `_expect` preserves it whether it
returns or raises; and `_recover_from_error` (whose saved points are
in-bounds) preserves both it and the recovery-point bound, for any fuel. -/
theorem C10_cursor_operations_preserve_invariant (s : PState) (h : CursorInv s) :
    CursorInv (advanceState s)
    ∧ (∀ p : Nat, p ≤ s.tokens.length → CursorInv (resetState p s))
    ∧ (∀ (k : String) (v : Option String), CursorInv ((expectTok k v s).stateOf))
    ∧ (RecoveryInv s → ∀ fuel : Nat,
        CursorInv ((recoverFromError fuel s).stateOf)
        ∧ RecoveryInv ((recoverFromError fuel s).stateOf)) := by
  refine ⟨cursorInv_advance h, ?_, ?_, ?_⟩
  · intro p hp
    exact cursorInv_reset hp
  · intro k v
    exact expectTok_inv h k v
  · intro hr fuel
    exact recoverFromError_inv h hr fuel

/-- Witness for C10 at a concrete cursor state with one saved recovery
point. -/
theorem C10_cursor_operations_preserve_invariant_witness :
    CursorInv (advanceState c10wState)
    ∧ CursorInv (resetState 1 c10wState)
    ∧ CursorInv ((expectTok "IDENTIFIER" none c10wState).stateOf)
    ∧ CursorInv ((recoverFromError 5 c10wState).stateOf) := by
  have h := C10_cursor_operations_preserve_invariant c10wState
    (by unfold CursorInv; exact ⟨by decide, by decide⟩)
  refine ⟨h.1, h.2.1 1 (by decide), h.2.2.1 "IDENTIFIER" none, ?_⟩
  exact (h.2.2.2 (by unfold RecoveryInv; decide) 5).1

end JavaParser
